import Mathlib

set_option maxRecDepth 100000

/-!
Verification development for the dext tool-retrieval broker.

The definitions below are a shallow embedding of the TypeScript sources:
JavaScript strings are modelled as `List Char`, the SQLite tables of
`database.ts` as lists of rows, machine floats used only as similarity
scores as `ℚ`, and the externally-delegated pieces (the embedding endpoint
and the `vec_distance_cosine` primitive of sqlite-vec) as function
parameters.  MD5 (node's `crypto.createHash("md5")`) is implemented in
full from RFC 1321 so that tool identities are computed exactly.
-/

/-- JavaScript strings, modelled as lists of unicode scalar values. -/
abbrev JStr := List Char

/-- Characters removed by JavaScript `String.prototype.trim`:
ECMAScript WhiteSpace plus LineTerminator code points. -/
def jsWhite (c : Char) : Bool :=
  [9, 10, 11, 12, 13, 32, 160, 5760, 8232, 8233, 8239, 8287, 12288, 65279].contains c.toNat
    || (8192 ≤ c.toNat && c.toNat ≤ 8202)

/-- Leading-whitespace removal. -/
def jsTrimStart (s : JStr) : JStr := s.dropWhile jsWhite

/-- Trailing-whitespace removal. -/
def jsTrimEnd (s : JStr) : JStr := (s.reverse.dropWhile jsWhite).reverse

/-- JavaScript `s.trim()`: removes surrounding whitespace only. -/
def jsTrim (s : JStr) : JStr := jsTrimEnd (jsTrimStart s)

/-- JavaScript template interpolation of a possibly-undefined string value:
`undefined` prints as the literal text `undefined`. -/
def jsShowOpt : Option JStr → JStr
  | none => ("undefined".data)
  | some s => s

/-- JavaScript `a || b` for an optional string `a` with string default `b`:
`undefined` and the empty string are falsy. -/
def jsOr (a : Option JStr) (b : JStr) : JStr :=
  match a with
  | none => b
  | some s => if s = [] then b else s

/-- UTF-8 encoding of a string, as the byte list node feeds to the hash. -/
def utf8Encode : JStr → List Nat
  | [] => []
  | c :: cs =>
    let n := c.toNat
    (if n < 128 then [n]
     else if n < 2048 then [192 + n / 64, 128 + n % 64]
     else if n < 65536 then [224 + n / 4096, 128 + (n / 64) % 64, 128 + n % 64]
     else [240 + n / 262144, 128 + (n / 4096) % 64, 128 + (n / 64) % 64, 128 + n % 64])
      ++ utf8Encode cs

/-! ### MD5 (RFC 1321), over byte lists with 32-bit words as `Nat % 2^32` -/

/-- Truncation to a 32-bit word. -/
def w32 (n : Nat) : Nat := n % 4294967296

/-- 32-bit bitwise complement. -/
def wnot (a : Nat) : Nat := 4294967295 - w32 a

/-- 32-bit left rotation by `s` (for `s < 32`). -/
def rotl32 (x s : Nat) : Nat := (w32 x * 2 ^ s + w32 x / 2 ^ (32 - s)) % 4294967296

/-- The 64 MD5 sine-derived constants. -/
def md5K : List Nat :=
  [0xd76aa478, 0xe8c7b756, 0x242070db, 0xc1bdceee,
   0xf57c0faf, 0x4787c62a, 0xa8304613, 0xfd469501,
   0x698098d8, 0x8b44f7af, 0xffff5bb1, 0x895cd7be,
   0x6b901122, 0xfd987193, 0xa679438e, 0x49b40821,
   0xf61e2562, 0xc040b340, 0x265e5a51, 0xe9b6c7aa,
   0xd62f105d, 0x02441453, 0xd8a1e681, 0xe7d3fbc8,
   0x21e1cde6, 0xc33707d6, 0xf4d50d87, 0x455a14ed,
   0xa9e3e905, 0xfcefa3f8, 0x676f02d9, 0x8d2a4c8a,
   0xfffa3942, 0x8771f681, 0x6d9d6122, 0xfde5380c,
   0xa4beea44, 0x4bdecfa9, 0xf6bb4b60, 0xbebfbc70,
   0x289b7ec6, 0xeaa127fa, 0xd4ef3085, 0x04881d05,
   0xd9d4d039, 0xe6db99e5, 0x1fa27cf8, 0xc4ac5665,
   0xf4292244, 0x432aff97, 0xab9423a7, 0xfc93a039,
   0x655b59c3, 0x8f0ccc92, 0xffeff47d, 0x85845dd1,
   0x6fa87e4f, 0xfe2ce6e0, 0xa3014314, 0x4e0811a1,
   0xf7537e82, 0xbd3af235, 0x2ad7d2bb, 0xeb86d391]

/-- The 64 MD5 per-round left-rotation amounts. -/
def md5S : List Nat :=
  [7, 12, 17, 22, 7, 12, 17, 22, 7, 12, 17, 22, 7, 12, 17, 22,
   5, 9, 14, 20, 5, 9, 14, 20, 5, 9, 14, 20, 5, 9, 14, 20,
   4, 11, 16, 23, 4, 11, 16, 23, 4, 11, 16, 23, 4, 11, 16, 23,
   6, 10, 15, 21, 6, 10, 15, 21, 6, 10, 15, 21, 6, 10, 15, 21]

/-- The round-dependent mixing function of MD5. -/
def md5F (i b c d : Nat) : Nat :=
  if i < 16 then (b &&& c) ||| (wnot b &&& d)
  else if i < 32 then (d &&& b) ||| (wnot d &&& c)
  else if i < 48 then b ^^^ c ^^^ d
  else c ^^^ (b ||| wnot d)

/-- The round-dependent message-word index of MD5. -/
def md5G (i : Nat) : Nat :=
  if i < 16 then i
  else if i < 32 then (5 * i + 1) % 16
  else if i < 48 then (3 * i + 5) % 16
  else (7 * i) % 16

/-- One of the 64 MD5 rounds on the state `(a, b, c, d)`. -/
def md5Round (m : List Nat) (i : Nat) : Nat × Nat × Nat × Nat → Nat × Nat × Nat × Nat
  | (a, b, c, d) =>
    let f := w32 (md5F i b c d + a + md5K.getD i 0 + m.getD (md5G i) 0)
    (d, w32 (b + rotl32 f (md5S.getD i 0)), b, c)

/-- Processing of one 16-word chunk. -/
def md5Chunk (m : List Nat) (h : Nat × Nat × Nat × Nat) : Nat × Nat × Nat × Nat :=
  let r := (List.range 64).foldl (fun st i => md5Round m i st) h
  (w32 (h.1 + r.1), w32 (h.2.1 + r.2.1), w32 (h.2.2.1 + r.2.2.1), w32 (h.2.2.2 + r.2.2.2))

/-- Little-endian 32-bit words of a 64-byte chunk. -/
def chunkWords : List Nat → List Nat
  | b0 :: b1 :: b2 :: b3 :: rest =>
      (b0 + 256 * b1 + 65536 * b2 + 16777216 * b3) :: chunkWords rest
  | _ => []

/-- Splitting a padded message into 64-byte chunks (the accumulator holds
the current chunk reversed, so the recursion is structural). -/
def chunksAux : List Nat → List Nat → List (List Nat)
  | [], acc => if acc.isEmpty then [] else [acc.reverse]
  | b :: rest, acc =>
      if acc.length = 63 then ((b :: acc).reverse) :: chunksAux rest []
      else chunksAux rest (b :: acc)

def chunks64 (l : List Nat) : List (List Nat) := chunksAux l []

/-- `k` little-endian bytes of `n`. -/
def leBytes : Nat → Nat → List Nat
  | 0, _ => []
  | k + 1, n => n % 256 :: leBytes k (n / 256)

/-- MD5 padding: `0x80`, zeros to 56 mod 64, then the 64-bit bit length. -/
def md5Pad (msg : List Nat) : List Nat :=
  msg ++ [128] ++ List.replicate ((119 - msg.length % 64) % 64) 0 ++ leBytes 8 (8 * msg.length)

/-- The MD5 initial state. -/
def md5Init : Nat × Nat × Nat × Nat := (0x67452301, 0xefcdab89, 0x98badcfe, 0x10325476)

/-- The 16-byte MD5 digest of a byte list. -/
def md5Bytes (msg : List Nat) : List Nat :=
  let hs := (chunks64 (md5Pad msg)).foldl (fun h ch => md5Chunk (chunkWords ch) h) md5Init
  leBytes 4 hs.1 ++ leBytes 4 hs.2.1 ++ leBytes 4 hs.2.2.1 ++ leBytes 4 hs.2.2.2

/-- Lowercase hex digit. -/
def hexDigitChar (n : Nat) : Char :=
  if n < 10 then Char.ofNat (48 + n) else Char.ofNat (87 + n)

/-- Lowercase hex rendering of a byte list. -/
def toHex (bytes : List Nat) : JStr :=
  bytes.foldr (fun b acc => hexDigitChar (b / 16) :: hexDigitChar (b % 16) :: acc) []

/-- Hex MD5 of a byte list, as node's `.digest("hex")`. -/
def md5Hex (msg : List Nat) : JStr := toHex (md5Bytes msg)

/-- `VectorDatabase.generateToolMD5` (database.ts): the hex MD5 of the UTF-8
bytes of `` `${toolName}${description}`.trim() ``. -/
def generateToolMD5 (toolName description : JStr) : JStr :=
  md5Hex (utf8Encode (jsTrim (toolName ++ description)))

/-! ### SQLite LIKE (no ESCAPE clause, default ASCII case-insensitivity) -/

/-- ASCII lowercasing as applied by SQLite's default `LIKE`. -/
def likeCharLower (c : Char) : Char :=
  if 65 ≤ c.toNat ∧ c.toNat ≤ 90 then Char.ofNat (c.toNat + 32) else c

/-- SQLite `string LIKE pattern`: `%` matches any sequence, `_` matches any
single character, other characters compare ASCII-case-insensitively.
Structural recursion on a fuel that dominates every call chain (each step
consumes at least one pattern or string character). -/
def sqliteLikeFuel : Nat → JStr → JStr → Bool
  | 0, _, _ => false
  | _ + 1, [], [] => true
  | _ + 1, [], _ :: _ => false
  | fuel + 1, '%' :: ps, [] => sqliteLikeFuel fuel ps []
  | fuel + 1, '%' :: ps, c :: cs =>
      sqliteLikeFuel fuel ps (c :: cs) || sqliteLikeFuel fuel ('%' :: ps) cs
  | _ + 1, '_' :: _, [] => false
  | fuel + 1, '_' :: ps, _ :: cs => sqliteLikeFuel fuel ps cs
  | _ + 1, _ :: _, [] => false
  | fuel + 1, p :: ps, c :: cs => (likeCharLower p = likeCharLower c) && sqliteLikeFuel fuel ps cs

/-- `string LIKE pattern` with sufficient fuel (pattern first, string second). -/
def sqliteLike (p s : JStr) : Bool := sqliteLikeFuel (p.length + s.length + 1) p s

/-! ### The SQLite database of database.ts

`tool_vectors` rows (the `created_at`/`updated_at` audit columns are
dropped: no claim reads them), the `vec_tool_embeddings` virtual table as
`(rowid, vector)` pairs, and `tool_mapping` as `(rowid, tool_id)` pairs
with `rowid` the primary key.  Row ids are modelled by monotone counters,
as assigned by AUTOINCREMENT / rowid allocation. -/

structure ToolRow where
  id : Nat
  tool_md5 : JStr
  model_name : JStr
  tool_name : JStr
  description : JStr
deriving DecidableEq

structure DB where
  tool_vectors : List ToolRow
  vec_tool_embeddings : List (Nat × List ℚ)
  tool_mapping : List (Nat × Nat)
  next_tool_id : Nat
  next_vec_rowid : Nat
deriving DecidableEq

/-- The freshly created database (AUTOINCREMENT starts at 1). -/
def emptyDB : DB := ⟨[], [], [], 1, 1⟩

/-- `VectorDatabase.getToolByMD5`: first row matching `(tool_md5, model_name)`. -/
def getToolByMD5 (db : DB) (toolMD5 modelName : JStr) : Option ToolRow :=
  db.tool_vectors.find? (fun tv => tv.tool_md5 == toolMD5 && tv.model_name == modelName)

/-- The vector insert plus `INSERT OR REPLACE INTO tool_mapping (rowid, tool_id)`
steps shared by both branches of `saveToolVector`.  `OR REPLACE` evicts any
existing mapping row with the same `rowid` (the only uniqueness on the table). -/
def insertVecAndMap (db : DB) (vector : List ℚ) (toolId : Nat) : DB :=
  let rid := db.next_vec_rowid
  { db with
    vec_tool_embeddings := db.vec_tool_embeddings ++ [(rid, vector)],
    tool_mapping := (db.tool_mapping.filter (fun m => m.1 != rid)) ++ [(rid, toolId)],
    next_vec_rowid := rid + 1 }

/-- `VectorDatabase.saveToolVector`: update-or-insert the `tool_vectors` row
keyed by `(tool_md5, model_name)`, then always insert a fresh vector row and
a mapping row for it.  Returns the database and the tool id. -/
def saveToolVector (db : DB) (toolName description : JStr) (vector : List ℚ)
    (modelName : JStr) : DB × Nat :=
  let toolMD5 := generateToolMD5 toolName description
  match db.tool_vectors.find? (fun tv => tv.tool_md5 == toolMD5 && tv.model_name == modelName) with
  | some existing =>
      let db' := { db with
        tool_vectors := db.tool_vectors.map (fun tv =>
          if tv.id = existing.id then
            { tv with tool_name := toolName, description := description }
          else tv) }
      (insertVecAndMap db' vector existing.id, existing.id)
  | none =>
      let newId := db.next_tool_id
      let row : ToolRow :=
        { id := newId, tool_md5 := toolMD5, model_name := modelName,
          tool_name := toolName, description := description }
      let db' := { db with
        tool_vectors := db.tool_vectors ++ [row], next_tool_id := newId + 1 }
      (insertVecAndMap db' vector newId, newId)

/-- `VectorDatabase.saveToolVectorsBatch`: `saveToolVector` over the list,
collecting the returned ids. -/
def saveToolVectorsBatch (db : DB) (toolsData : List (JStr × JStr × List ℚ))
    (modelName : JStr) : DB × List Nat :=
  toolsData.foldl
    (fun acc t =>
      let r := saveToolVector acc.1 t.1 t.2.1 t.2.2 modelName
      (r.1, acc.2 ++ [r.2]))
    (db, [])

/-- The row predicate of `deleteToolVector`: `tool_md5` always, and
`model_name` only when a model name was given. -/
def delMatchRow (toolMD5 : JStr) (modelName : Option JStr) (tv : ToolRow) : Bool :=
  tv.tool_md5 == toolMD5 &&
    (match modelName with | some m => tv.model_name == m | none => true)

/-- Step 1 of `deleteToolVector`: the ids of the records to delete. -/
def delToolIds (db : DB) (toolMD5 : JStr) (modelName : Option JStr) : List Nat :=
  (db.tool_vectors.filter (delMatchRow toolMD5 modelName)).map (fun tv => tv.id)

/-- Step 2 of `deleteToolVector`: the vector rowids mapped to those ids. -/
def delRids (db : DB) (toolIds : List Nat) : List Nat :=
  (db.tool_mapping.filter (fun mp => toolIds.contains mp.2)).map (fun mp => mp.1)

/-- `VectorDatabase.deleteToolVector`: locate the `tool_vectors` rows matching
`tool_md5` (and `model_name` when given), delete the vector rows reachable
through `tool_mapping`, the mapping rows, and finally the records; the
returned count is the number of deleted records. -/
def deleteToolVector (db : DB) (toolMD5 : JStr) (modelName : Option JStr) : DB × Nat :=
  if (delToolIds db toolMD5 modelName).isEmpty then (db, 0)
  else
    ({ db with
        vec_tool_embeddings := db.vec_tool_embeddings.filter
          (fun v => !((delRids db (delToolIds db toolMD5 modelName)).contains v.1)),
        tool_mapping := db.tool_mapping.filter
          (fun mp => !((delToolIds db toolMD5 modelName).contains mp.2)),
        tool_vectors := db.tool_vectors.filter
          (fun tv => !(delMatchRow toolMD5 modelName tv)) },
     (db.tool_vectors.filter (delMatchRow toolMD5 modelName)).length)

/-! ### Vector search (searchSimilarVectors) -/

structure SearchResult where
  id : Nat
  tool_md5 : JStr
  model_name : JStr
  tool_name : JStr
  description : JStr
  distance : ℚ
  similarity : ℚ
deriving DecidableEq

/-- The `vec_tool_embeddings ⋈ tool_mapping ⋈ tool_vectors` join of the
search queries. -/
def dbJoin (db : DB) : List (List ℚ × ToolRow) :=
  db.vec_tool_embeddings.flatMap (fun ve =>
    (db.tool_mapping.filter (fun m => m.1 == ve.1)).flatMap (fun m =>
      (db.tool_vectors.filter (fun tv => tv.id == m.2)).map (fun tv => (ve.2, tv))))

/-- Stable insertion for `ORDER BY distance ASC` (sqlite-vec computes the
distances; ties keep scan order). -/
def insertByDist (r : SearchResult) : List SearchResult → List SearchResult
  | [] => [r]
  | x :: xs => if r.distance ≤ x.distance then r :: x :: xs else x :: insertByDist r xs

def sortByDist (l : List SearchResult) : List SearchResult :=
  l.foldr insertByDist []

/-- `VectorDatabase.searchSimilarVectors`.  The cosine-distance primitive
`vec_distance_cosine` is delegated to the sqlite-vec engine and is a
parameter `dist` here, applied as `dist stored query`.  With a non-empty
`serverNames` list the WHERE clause additionally requires
`tool_name LIKE '{serverName}__%'` for some server name; similarity is
`1.0 - distance`, rows below `threshold` are dropped, the rest are sorted
by ascending distance and truncated to `limit`. -/
def searchSimilarVectors (dist : List ℚ → List ℚ → ℚ) (db : DB) (queryVector : List ℚ)
    (limit : Nat) (threshold : ℚ) (serverNames : Option (List JStr)) : List SearchResult :=
  let rows := (dbJoin db).map (fun x =>
    let d := dist x.1 queryVector
    ({ id := x.2.id, tool_md5 := x.2.tool_md5, model_name := x.2.model_name,
       tool_name := x.2.tool_name, description := x.2.description,
       distance := d, similarity := 1 - d } : SearchResult))
  let serverCond := fun (r : SearchResult) =>
    match serverNames with
    | some (s :: ss) => (s :: ss).any (fun sn => sqliteLike (sn ++ ("__%".data)) r.tool_name)
    | _ => true
  let filtered := rows.filter (fun r => decide (threshold ≤ r.similarity) && serverCond r)
  (sortByDist filtered).take limit

/-! ### Session history (session_tool_history) -/

structure HistEntry where
  session_id : JStr
  tool_md5 : JStr
  tool_name : JStr
deriving DecidableEq

abbrev History := List HistEntry

/-- `VectorDatabase.getSessionHistory` (the `retrieved_at` ordering is
irrelevant to every claim: only emptiness and the md5 set are consumed). -/
def getSessionHistory (h : History) (sid : JStr) : List HistEntry :=
  h.filter (fun e => e.session_id == sid)

/-- `VectorDatabase.recordSessionToolRetrieval`: `INSERT OR IGNORE` on the
`(session_id, tool_md5)` unique key. -/
def recordSessionToolRetrieval (h : History) (sid md5v name : JStr) : History :=
  if h.any (fun e => e.session_id == sid && e.tool_md5 == md5v) then h
  else h ++ [⟨sid, md5v, name⟩]

/-- `VectorDatabase.recordSessionToolRetrievalBatch`. -/
def recordSessionToolRetrievalBatch (h : History) (sid : JStr)
    (tools : List (JStr × JStr)) : History :=
  tools.foldl (fun acc t => recordSessionToolRetrieval acc sid t.1 t.2) h

/-! ### Session id generation: Math.random().toString(36).substring(2, 8)

`Math.random()` yields a double `k / 2^53 ∈ [0, 1)`; every such value has a
terminating base-36 expansion (within 27 digits, since `2^53 ∣ 36^27`), and
`Number.prototype.toString(36)` renders `"0."` followed by exactly that
expansion.  Fuel 64 therefore never runs out on an attainable input. -/

/-- Base-36 digit character (0-9 then a-z). -/
def base36Digit (n : Nat) : Char :=
  if n < 10 then Char.ofNat (48 + n) else Char.ofNat (87 + n)

/-- Terminating base-36 fractional expansion of `q ∈ [0, 1)`. -/
def frac36 : Nat → ℚ → JStr
  | 0, _ => []
  | fuel + 1, q =>
    if q = 0 then []
    else
      let d := (q * 36).floor
      base36Digit d.toNat :: frac36 fuel (q * 36 - d)

/-- `Number.prototype.toString(36)` on a dyadic `q ∈ [0, 1)`. -/
def jsNumToString36 (q : ℚ) : JStr :=
  if q = 0 then ("0".data) else ("0.".data) ++ frac36 64 q

/-- The generated session id for random draw `q`:
`Math.random().toString(36).substring(2, 8)` (substring clamps, so this is
drop 2 then take 6). -/
def genSessionId (q : ℚ) : JStr := ((jsNumToString36 q).drop 2).take 6

/-! ### Live tools and the MCP-tool views -/

/-- A live upstream tool as seen by the executor: the fields the handler
reads plus the outcome of `invoke` as a function of the parameters
(`Except` models an upstream throw). -/
structure LiveTool (π : Type) (α : Type) where
  name : Option JStr
  description : Option JStr
  invoke : π → Except JStr α

/-- A tool object as the indexer and recommender see it
(`MCPToolInfo` of vector_search.ts). -/
structure MCPToolInfoM where
  name : Option JStr
  tool_name : Option JStr
  description : Option JStr
deriving DecidableEq

/-- `tool.name || tool.tool_name || ""` as used by the indexer and by
`findMatchingMCPTools`. -/
def mcpToolName (t : MCPToolInfoM) : JStr := jsOr t.name (jsOr t.tool_name [])

/-- `tool.description || ""`. -/
def mcpToolDesc (t : MCPToolInfoM) : JStr := jsOr t.description []

/-! ### getEnhancedServerDescription (mcp-server.ts) -/

/-- JavaScript `s.split("__")` (non-overlapping, left to right). -/
def splitDunder : JStr → List JStr
  | [] => [[]]
  | '_' :: '_' :: rest => [] :: splitDunder rest
  | c :: rest =>
      match splitDunder rest with
      | [] => [[c]]
      | h :: t => (c :: h) :: t

/-- The grouping key `parts[0] || "unknown"` of a live tool's name. -/
def liveToolGroupName (nm : Option JStr) : JStr :=
  let parts := splitDunder (jsOr nm [])
  let h := parts.headD []
  if h = [] then ("unknown".data) else h

/-- The displayed short name `(parts.slice(1).join("__") || tool.name) || ""`. -/
def liveToolShortName (nm : Option JStr) : JStr :=
  let parts := splitDunder (jsOr nm [])
  let joined := List.intercalate ("__".data) (parts.drop 1)
  if joined = [] then jsOr nm [] else joined

/-- An `mcp_servers` row (the columns this feature reads). -/
structure McpServerRow where
  server_name : JStr
  description : Option JStr
  enabled : Bool
deriving DecidableEq

/-- Byte-lexicographic (SQLite BINARY) order on strings; on unicode scalar
values UTF-8 byte order coincides with code-point order. -/
def jstrLt : JStr → JStr → Bool
  | [], [] => false
  | [], _ :: _ => true
  | _ :: _, [] => false
  | x :: xs, y :: ys => x.toNat < y.toNat || (x = y && jstrLt xs ys)

/-- Stable insertion sort for `ORDER BY server_name`. -/
def insertByName (r : McpServerRow) : List McpServerRow → List McpServerRow
  | [] => [r]
  | x :: xs => if jstrLt r.server_name x.server_name then r :: x :: xs else x :: insertByName r xs

def sortServersByName (l : List McpServerRow) : List McpServerRow :=
  l.foldr insertByName []

/-- `getEnhancedServerDescription` (success path): group the live tools by
the prefix before `"__"`, walk the enabled server rows ordered by name,
render `name(description) - 工具: t1, t2`, and wrap a non-empty list in the
policy sentence; with no enabled servers the result is the empty string. -/
def getEnhancedServerDescription (liveToolNames : List (Option JStr))
    (servers : List McpServerRow) : JStr :=
  let enabledRows := sortServersByName (servers.filter (fun s => s.enabled))
  let serverDescriptions := enabledRows.map (fun srow =>
    let withDesc := srow.server_name ++
      (match srow.description with
       | some d => if d = [] then [] else ('(' :: d) ++ [')']
       | none => [])
    let serverTools := (liveToolNames.filter
        (fun nm => liveToolGroupName nm == srow.server_name)).map liveToolShortName
    withDesc ++
      (if serverTools ≠ [] then
        (" - 工具: ".data) ++ List.intercalate (", ".data) serverTools
       else []))
  if serverDescriptions ≠ [] then
    ("当前可以使用的服务器：".data) ++ List.intercalate ("、".data) serverDescriptions
      ++ ("，务必不要直接使用它们，只可以使用它们用来检索！".data)
  else []

/-! ### recommendTools (vector_search.ts) -/

/-- The fields of a `RecommendationResult` the retriever handler consumes
(`rank` is recomputed by the handler; the opaque `mcp_tool` schemas are
carried through unchanged and are not inspected by any claim). -/
structure RecTool where
  tool_name : JStr
  tool_md5 : JStr
  description : JStr
  similarity : ℚ
deriving DecidableEq

/-- `VectorSearch.findMatchingMCPTools`: for each similar tool, the first
available MCP tool whose recomputed MD5 matches; unmatched entries drop. -/
def findMatchingMCPTools (similarTools : List SearchResult)
    (availableTools : List MCPToolInfoM) : List (SearchResult × MCPToolInfoM) :=
  similarTools.flatMap (fun st =>
    match availableTools.find?
        (fun mt => generateToolMD5 (mcpToolName mt) (mcpToolDesc mt) == st.tool_md5) with
    | some mt => [(st, mt)]
    | none => [])

/-- `VectorSearch.recommendTools` with `includeDetails = true` (the only
mode the retriever uses): vector search then live-catalog matching. -/
def recommendTools (dist : List ℚ → List ℚ → ℚ) (vectorize : JStr → List ℚ) (db : DB)
    (availableTools : List MCPToolInfoM) (query : JStr) (topK : Nat) (threshold : ℚ)
    (serverNames : Option (List JStr)) : List RecTool :=
  let similarTools := searchSimilarVectors dist db (vectorize query) topK threshold serverNames
  if similarTools.isEmpty then []
  else
    (findMatchingMCPTools similarTools availableTools).map (fun p =>
      { tool_name := mcpToolName p.2, tool_md5 := p.1.tool_md5,
        description := mcpToolDesc p.2, similarity := p.1.similarity })

/-! ### The retriever tool handler (mcp-server.ts) -/

structure NewToolEntry where
  rank : Nat
  tool_name : JStr
  md5 : JStr
  description : JStr
  similarity : ℚ
deriving DecidableEq

structure KnownToolEntry where
  rank : Nat
  tool_name : JStr
  md5 : JStr
deriving DecidableEq

structure QueryNew where
  query_index : Nat
  query : JStr
  tools : List NewToolEntry
deriving DecidableEq

structure QueryKnown where
  query_index : Nat
  query : JStr
  tools : List KnownToolEntry
deriving DecidableEq

structure RetrieveResult where
  session_id : JStr
  new_tools : List QueryNew
  known_tools : List QueryKnown
  new_tools_count : Nat
  known_tools_count : Nat
  session_history_count : Nat
  server_description : Option JStr
deriving DecidableEq

/-- The session-id check of the handler: regenerate when the caller passed
an empty id or an id with no recorded history. -/
def sessionNeedsNew (hist : History) (sessionId : JStr) : Bool :=
  sessionId.isEmpty || (getSessionHistory hist sessionId).isEmpty

/-- The md5 set of a session's history (`knownToolMD5s`), as the backing
list; membership and cardinality-after-dedup model the JS `Set`. -/
def knownMD5List (hist : History) (sid : JStr) : List JStr :=
  (getSessionHistory hist sid).map (fun e => e.tool_md5)

/-- The new-tool partition of one query's candidates: ranks are positions
in the full candidate list, entries are kept in candidate order. -/
def newForQuery (knownMD5s : List JStr) (cands : List RecTool) : List NewToolEntry :=
  (cands.enum.filter (fun c => !(knownMD5s.contains c.2.tool_md5))).map
    (fun c => ({ rank := c.1 + 1, tool_name := c.2.tool_name, md5 := c.2.tool_md5,
                 description := c.2.description, similarity := c.2.similarity } : NewToolEntry))

/-- The known-tool partition of one query's candidates. -/
def knownForQuery (knownMD5s : List JStr) (cands : List RecTool) : List KnownToolEntry :=
  (cands.enum.filter (fun c => knownMD5s.contains c.2.tool_md5)).map
    (fun c => ({ rank := c.1 + 1, tool_name := c.2.tool_name,
                 md5 := c.2.tool_md5 } : KnownToolEntry))

/-- The `new_tools` array: one entry per description (in caller order) whose
new-tool partition is non-empty. -/
def retrieverNewTools (search : JStr → List RecTool) (knownMD5s : List JStr)
    (descriptions : List JStr) : List QueryNew :=
  (descriptions.enum.filter (fun p => !(newForQuery knownMD5s (search p.2)).isEmpty)).map
    (fun p => ({ query_index := p.1, query := p.2,
                 tools := newForQuery knownMD5s (search p.2) } : QueryNew))

/-- The `known_tools` array. -/
def retrieverKnownTools (search : JStr → List RecTool) (knownMD5s : List JStr)
    (descriptions : List JStr) : List QueryKnown :=
  (descriptions.enum.filter (fun p => !(knownForQuery knownMD5s (search p.2)).isEmpty)).map
    (fun p => ({ query_index := p.1, query := p.2,
                 tools := knownForQuery knownMD5s (search p.2) } : QueryKnown))

/-- The `(toolMD5, toolName)` pairs handed to the batch recorder. -/
def retrieverToRecord (newTools : List QueryNew) : List (JStr × JStr) :=
  newTools.flatMap (fun q => q.tools.map (fun t => (t.md5, t.tool_name)))

/-- `reduce((sum, item) => sum + item.tools.length, 0)` over `new_tools`. -/
def countNew (l : List QueryNew) : Nat := l.foldl (fun s q => s + q.tools.length) 0

/-- Likewise over `known_tools`. -/
def countKnown (l : List QueryKnown) : Nat := l.foldl (fun s q => s + q.tools.length) 0

/-- The retriever handler (success path).  `search` is the per-description
call to `vectorSearch.recommendTools` (deterministic embedding/search),
`freshId` the value `Math.random().toString(36).substring(2, 8)` would
produce if a new session id is needed, `enhanced` the value of
`getEnhancedServerDescription()`.  Returns the composed result and the
session-history table after `recordSessionToolRetrievalBatch`. -/
def retrieverHandler (search : JStr → List RecTool) (hist : History)
    (descriptions : List JStr) (sessionId : JStr) (freshId : JStr)
    (enhanced : JStr) : RetrieveResult × History :=
  let needNew := sessionNeedsNew hist sessionId
  let finalSid := if needNew then freshId else sessionId
  let knownMD5s := knownMD5List hist finalSid
  let newTools := retrieverNewTools search knownMD5s descriptions
  let knownTools := retrieverKnownTools search knownMD5s descriptions
  let toRecord := retrieverToRecord newTools
  let hist' :=
    if newTools ≠ [] then
      if toRecord ≠ [] then recordSessionToolRetrievalBatch hist finalSid toRecord else hist
    else hist
  (⟨finalSid, newTools, knownTools, countNew newTools, countKnown knownTools,
    knownMD5s.dedup.length + countNew newTools,
    if needNew then some enhanced else none⟩, hist')

/-! ### The indexer (VectorSearch.indexMCPTools) -/

/-- `VectorSearch.identifySimilarToolsToDelete`: keep the candidates whose
vector similarity reaches the threshold.  (The Levenshtein name similarity
the source also computes is written only to the log and plays no part in
the decision, so it is not modelled.) -/
def identifySimilarToolsToDelete (_newToolName _newDescription : JStr)
    (similarTools : List SearchResult) (similarityThreshold : ℚ) : List SearchResult :=
  similarTools.filter (fun s => decide (similarityThreshold ≤ s.similarity))

/-- One deletion attempt of the near-duplicate cleanup: a throwing
`deleteToolVector` (modelled by the `deleteFails` oracle; the transaction
leaves no partial state) is logged and skipped. -/
def indexStepDelete (deleteFails : JStr → Bool) (modelName : JStr)
    (acc : DB × Nat) (old : SearchResult) : DB × Nat :=
  if deleteFails old.tool_md5 then acc
  else
    let r := deleteToolVector acc.1 old.tool_md5 (some modelName)
    (r.1, acc.2 + r.2)

/-- The body of the vectorize-and-clean loop for one new tool
`(toolName, description)`: embed `` `${toolName} ${description}`.trim() ``,
search the current database with `top_k = 10`, `threshold = 0.7` and no
server filter, delete the candidates at similarity ≥ the 0.96 threshold,
and append the tool to the to-save list. -/
def indexLoopStep (dist : List ℚ → List ℚ → ℚ) (vectorize : JStr → List ℚ)
    (deleteFails : JStr → Bool) (modelName : JStr)
    (acc : DB × Nat × List (JStr × JStr × List ℚ)) (tool : JStr × JStr) :
    DB × Nat × List (JStr × JStr × List ℚ) :=
  let vector := vectorize (jsTrim (tool.1 ++ [' '] ++ tool.2))
  let similarTools := searchSimilarVectors dist acc.1 vector 10 (7/10) none
  let toDelete := identifySimilarToolsToDelete tool.1 tool.2 similarTools (96/100)
  let afterDel := toDelete.foldl (indexStepDelete deleteFails modelName) (acc.1, acc.2.1)
  (afterDel.1, afterDel.2, acc.2.2 ++ [(tool.1, tool.2, vector)])

structure IndexOutcome where
  db : DB
  saveResults : List Nat
  deletedTotal : Nat
deriving DecidableEq

/-- `VectorSearch.indexMCPTools`: skip every tool already present under
`(tool_md5, model_name)` (checked against the incoming database, before any
write); if nothing is new return immediately with no writes; otherwise run
the vectorize-and-clean loop and batch-save the collected tools. -/
def indexMCPTools (dist : List ℚ → List ℚ → ℚ) (vectorize : JStr → List ℚ)
    (deleteFails : JStr → Bool) (db : DB) (tools : List MCPToolInfoM)
    (modelName : JStr) : IndexOutcome :=
  let toolsToVectorize := (tools.filter (fun t =>
      mcpToolName t != [] &&
        (getToolByMD5 db (generateToolMD5 (mcpToolName t) (mcpToolDesc t)) modelName).isNone)).map
    (fun t => (mcpToolName t, mcpToolDesc t))
  if toolsToVectorize.isEmpty then ⟨db, [], 0⟩
  else
    let loop := toolsToVectorize.foldl (indexLoopStep dist vectorize deleteFails modelName)
      (db, 0, [])
    let saved := saveToolVectorsBatch loop.1 loop.2.2 modelName
    ⟨saved.1, saved.2, loop.2.1⟩

/-! ### The executor tool handler (mcp-server.ts) -/

/-- The inline identity recomputation of the executor:
`` md5(`${t.name}${t.description}`.trim()) `` — note the template turns an
undefined field into the text `undefined`. -/
def executorComputedMD5 {π α : Type} (t : LiveTool π α) : JStr :=
  md5Hex (utf8Encode (jsTrim (jsShowOpt t.name ++ jsShowOpt t.description)))

/-- An MCP tool-call result: the content blocks (text only here) and the
`isError` flag. -/
structure ExecResult where
  content : List JStr
  isError : Bool
deriving DecidableEq

/-- The executor handler: find the first live tool whose recomputed MD5
equals the argument (the persisted catalog is never consulted), invoke it,
and render the upstream result through `JSON.stringify` (the parameter
`stringify`); a missing tool or an upstream throw becomes an error content
block rather than a transport-level failure. -/
def executorHandler {π α : Type} (stringify : α → JStr) (tools : List (LiveTool π α))
    (md5v : JStr) (params : π) : ExecResult :=
  match tools.find? (fun t => executorComputedMD5 t == md5v) with
  | none => ⟨[("未找到md5为".data) ++ md5v ++ ("的工具".data)], true⟩
  | some t =>
      match t.invoke params with
      | Except.ok r => ⟨[stringify r], false⟩
      | Except.error e => ⟨[("工具执行失败: ".data) ++ e], true⟩

/-! ### Auxiliary notions used by the theorems -/

/-- Inner product over ℚ. -/
def dotQ (v w : List ℚ) : ℚ := ((v.zip w).map (fun p => p.1 * p.2)).sum

/-- Cosine distance specialised to unit vectors (`1 - cos = 1 - ⟨v,w⟩`),
the concrete instantiation of the delegated `vec_distance_cosine`
parameter in the closed scenarios below (each concrete vector used with it
has squared norm exactly 1). -/
def cosDistUnit (v w : List ℚ) : ℚ := 1 - dotQ v w

/-- Literal starts-with on strings (no wildcard reading). -/
def startsWithLit : JStr → JStr → Bool
  | [], _ => true
  | _ :: _, [] => false
  | p :: ps, c :: cs => p = c && startsWithLit ps cs

/-- The key bounds a database reached through the persistence layer
satisfies: every primary key is below its allocation counter. -/
def DBWF (db : DB) : Prop :=
  (∀ row ∈ db.tool_vectors, row.id < db.next_tool_id) ∧
  (∀ ve ∈ db.vec_tool_embeddings, ve.1 < db.next_vec_rowid) ∧
  (∀ mp ∈ db.tool_mapping, mp.1 < db.next_vec_rowid)

/-- `a` is a row-wise shrinking of `b` with untouched counters (what the
near-duplicate deletion pass does to the database). -/
def Shrinks (a b : DB) : Prop :=
  (∀ row ∈ a.tool_vectors, row ∈ b.tool_vectors) ∧
  (∀ mp ∈ a.tool_mapping, mp ∈ b.tool_mapping) ∧
  (∀ ve ∈ a.vec_tool_embeddings, ve ∈ b.vec_tool_embeddings) ∧
  a.next_tool_id = b.next_tool_id ∧ a.next_vec_rowid = b.next_vec_rowid

/-- Absence, in `db`, of the tool keyed `(m, mo)` together with its mapping
and vector rows, phrased against the base database `db0` the rows lived in. -/
def CleanFor (db0 : DB) (m mo : JStr) (db : DB) : Prop :=
  (∀ row ∈ db.tool_vectors, ¬(row.tool_md5 = m ∧ row.model_name = mo)) ∧
  (∀ mp ∈ db.tool_mapping, ∀ row ∈ db0.tool_vectors,
     row.tool_md5 = m → row.model_name = mo → mp.2 ≠ row.id) ∧
  (∀ ve ∈ db.vec_tool_embeddings, ∀ mp ∈ db0.tool_mapping, ∀ row ∈ db0.tool_vectors,
     row.tool_md5 = m → row.model_name = mo → mp.2 = row.id → ve.1 ≠ mp.1)

/-- Pairing invariant of the deletion pass: a surviving mapping (vector)
row that references the `(m, mo)` tool of `db0` can only survive together
with the rows it hangs off. -/
def PairedFor (db0 : DB) (m mo : JStr) (db : DB) : Prop :=
  (∀ mp ∈ db.tool_mapping, ∀ row ∈ db0.tool_vectors,
     row.tool_md5 = m → row.model_name = mo → mp.2 = row.id →
       row ∈ db.tool_vectors) ∧
  (∀ ve ∈ db.vec_tool_embeddings, ∀ mp ∈ db0.tool_mapping, ∀ row ∈ db0.tool_vectors,
     row.tool_md5 = m → row.model_name = mo → mp.2 = row.id → ve.1 = mp.1 →
       mp ∈ db.tool_mapping ∧ row ∈ db.tool_vectors)

/-! ### Concrete scenario instances -/

/-- Two servers `a` and `aa`, each holding tool `x`, indexed with identical
unit vectors (scenario of the prefix-collision test). -/
def c1DB : DB :=
  (saveToolVector
    ((saveToolVector emptyDB ("a__x".data) ("da".data) [1, 0] ("m".data)).1)
    ("aa__x".data) ("daa".data) [1, 0] ("m".data)).1

/-- A single deterministic recommendation, used to drive the session
scenarios. -/
def c2Rec : RecTool := ⟨("a__x".data), ("m1".data), ("da".data), 1⟩

def c2Search : JStr → List RecTool := fun _ => [c2Rec]

/-- First retrieval with the unknown session id `zzzzzz`. -/
def c2Call1 : RetrieveResult × History :=
  retrieverHandler c2Search [] [("q".data)] ("zzzzzz".data) ("abc123".data) []

/-- Second retrieval with the same input session id and descriptions. -/
def c2Call2 : RetrieveResult × History :=
  retrieverHandler c2Search c2Call1.2 [("q".data)] ("zzzzzz".data) ("def456".data) []

/-- A history in which session `abc123` has already retrieved one tool. -/
def c2Hist0 : History := [⟨("abc123".data), ("m0".data), ("t0".data)⟩]

/-- A database whose double-save exhibits the duplicated vector linkage. -/
def c5DB1 : DB := (saveToolVector emptyDB ("t".data) ("d".data) [1, 0] ("m".data)).1

def c5DB2 : DB := (saveToolVector c5DB1 ("t".data) ("d".data) [1, 0] ("m".data)).1

/-- Upstream tools `k` and `i` whose embeddings have cosine similarity
exactly `24/25 = 0.96` (both vectors are unit length). -/
def c6ToolK : MCPToolInfoM := ⟨some ("k".data), none, some ("dk".data)⟩

def c6ToolI : MCPToolInfoM := ⟨some ("i".data), none, some ("di".data)⟩

def c6Vectorize : JStr → List ℚ := fun s =>
  if s = jsTrim (("k".data) ++ [' '] ++ ("dk".data)) then [1, 0]
  else if s = jsTrim (("i".data) ++ [' '] ++ ("di".data)) then [24/25, 7/25]
  else [0, 1]

def noDeleteFail : JStr → Bool := fun _ => false

/-- `k` already indexed under model `m`. -/
def c6DB0 : DB := (saveToolVector emptyDB ("k".data) ("dk".data) [1, 0] ("m".data)).1

def c6Run1 : IndexOutcome :=
  indexMCPTools cosDistUnit c6Vectorize noDeleteFail c6DB0 [c6ToolK, c6ToolI] ("m".data)

def c6Run2 : IndexOutcome :=
  indexMCPTools cosDistUnit c6Vectorize noDeleteFail c6Run1.db [c6ToolK, c6ToolI] ("m".data)

/-- `k` indexed under a different model name (`other`). -/
def c3DB : DB := (saveToolVector emptyDB ("k".data) ("dk".data) [1, 0] ("other".data)).1

def c3Run : IndexOutcome :=
  indexMCPTools cosDistUnit c6Vectorize noDeleteFail c3DB [c6ToolI] ("m".data)

/-- Any embedder works against an empty catalog. -/
def c8Vectorize : JStr → List ℚ := fun _ => [1, 0]

def c8Search : JStr → List RecTool := fun d =>
  recommendTools cosDistUnit c8Vectorize emptyDB [] d 5 (1/10) none

/-- Empty-catalog retrieval: no servers, no live tools, empty history,
empty session id. -/
def c8Result : RetrieveResult × History :=
  retrieverHandler c8Search [] [("anything".data)] [] (genSessionId (mkRat 1 1073741824))
    (getEnhancedServerDescription [] [])

/-- Live tools for the executor dispatch scenario: one that succeeds and
one whose upstream invocation throws. -/
def c9Tool1 : LiveTool Unit Unit :=
  ⟨some ("a__x".data), some ("da".data), fun _ => Except.ok ()⟩

def c9Tool2 : LiveTool Unit Unit :=
  ⟨some ("b__y".data), some ("db".data), fun _ => Except.error ("boom".data)⟩

def c9Stringify : Unit → JStr := fun _ => ("null".data)

/-! ### Theorems -/

section ClaimProofs

attribute [local semireducible] Rat.sub Rat.add Rat.mul Rat.inv

-- Trimming only touches surrounding whitespace: dropping a trailing
-- whitespace character does not change the trimmed string.
theorem jsTrim_cons_white {a : Char} (ha : jsWhite a = true) (y : JStr) :
    jsTrim (a :: y) = jsTrim y := by
  simp [jsTrim, jsTrimStart, List.dropWhile_cons, ha]

theorem jsTrimEnd_append_white {c : Char} (hc : jsWhite c = true) (x : JStr) :
    jsTrimEnd (x ++ [c]) = jsTrimEnd x := by
  simp [jsTrimEnd, List.dropWhile_cons, hc]

theorem jsTrim_append_white {c : Char} (hc : jsWhite c = true) (x : JStr) :
    jsTrim (x ++ [c]) = jsTrim x := by
  induction x with
  | nil => simp [jsTrim, jsTrimStart, jsTrimEnd, List.dropWhile, hc]
  | cons a x ih =>
    by_cases ha : jsWhite a = true
    · rw [List.cons_append, jsTrim_cons_white ha, jsTrim_cons_white ha]
      exact ih
    · have hstart : jsTrimStart (a :: (x ++ [c])) = a :: (x ++ [c]) := by
        simp [jsTrimStart, List.dropWhile_cons, ha]
      have hstart' : jsTrimStart (a :: x) = a :: x := by
        simp [jsTrimStart, List.dropWhile_cons, ha]
      rw [List.cons_append, jsTrim, hstart, jsTrim, hstart',
        show a :: (x ++ [c]) = (a :: x) ++ [c] from rfl,
        jsTrimEnd_append_white hc]

/-- C4: `generateToolMD5(n, d)` is the hex MD5 of the UTF-8 bytes of the
concatenation `n ∥ d` with surrounding whitespace trimmed; it is
deterministic, and appending trailing whitespace to the description leaves
the identity unchanged. -/
theorem C4_tool_identity :
    (∀ n d : JStr, generateToolMD5 n d = md5Hex (utf8Encode (jsTrim (n ++ d)))) ∧
    (∀ n d n₂ d₂ : JStr, n = n₂ → d = d₂ → generateToolMD5 n d = generateToolMD5 n₂ d₂) ∧
    (∀ n d : JStr, generateToolMD5 n (d ++ [' ']) = generateToolMD5 n d) := by
  refine ⟨fun n d => rfl, fun n d n₂ d₂ h1 h2 => by rw [h1, h2], fun n d => ?_⟩
  unfold generateToolMD5
  rw [← List.append_assoc, jsTrim_append_white (by decide)]

/-- Witness for C4 at the spec's concrete inputs: indexing `A` with
`"hello world"` and then with `"hello world "` yields the same identity. -/
theorem C4_tool_identity_witness :
    generateToolMD5 ("A".data) ("hello world".data)
        = generateToolMD5 ("A".data) ("hello world".data) ∧
    generateToolMD5 ("A".data) ("hello world ".data)
        = generateToolMD5 ("A".data) ("hello world".data) := by
  constructor
  · exact C4_tool_identity.2.1 _ _ _ _ rfl rfl
  · have h := C4_tool_identity.2.2 ("A".data) ("hello world".data)
    have e : ("hello world".data) ++ [' '] = ("hello world ".data) := by decide
    rw [e] at h
    exact h

/-- C10: on a live tool whose `name` is a string and whose `description`
is a defined string, the executor's inline MD5 equals the indexer's
`generateToolMD5`; with an undefined description the two diverge, because
the executor's template renders the text `undefined` while the indexer
substitutes the empty string. -/
theorem C10_executor_identity_refines (π α : Type) (inv : π → Except JStr α) (n d : JStr) :
    executorComputedMD5 ({ name := some n, description := some d, invoke := inv } : LiveTool π α)
        = generateToolMD5 n d ∧
    executorComputedMD5 ({ name := some ("x".data), description := none, invoke := inv } : LiveTool π α)
        ≠ generateToolMD5 ("x".data) [] := by
  refine ⟨rfl, ?_⟩
  rw [show executorComputedMD5 ({ name := some ("x".data), description := none, invoke := inv } : LiveTool π α)
        = md5Hex (utf8Encode (jsTrim (("x".data) ++ ("undefined".data)))) from rfl]
  decide

-- `find?` returns the first element satisfying the predicate.
theorem find?_append_first {β} (p : β → Bool) (pre post : List β) (t : β)
    (hpre : ∀ u ∈ pre, p u = false) (ht : p t = true) :
    (pre ++ t :: post).find? p = some t := by
  induction pre with
  | nil => simp [List.find?_cons, ht]
  | cons a l ih =>
    have ha := hpre a (List.mem_cons_self a l)
    rw [List.cons_append, List.find?_cons_of_neg _ (by simp [ha])]
    exact ih fun u hu => hpre u (List.mem_cons_of_mem a hu)

/-- C9: the executor recomputes the MD5 of every live tool, invokes exactly
the first match, and renders the upstream result as a JSON text block; an
unknown md5 or an upstream throw produces an `isError` content block.
(The persisted catalog is not an input of `executorHandler` at all.) -/
theorem C9_executor_dispatch {π α : Type} (stringify : α → JStr)
    (tools pre post : List (LiveTool π α)) (t : LiveTool π α) (md5v : JStr) (params : π) :
    ((∀ u ∈ tools, executorComputedMD5 u ≠ md5v) →
      executorHandler stringify tools md5v params =
        ⟨[("未找到md5为".data) ++ md5v ++ ("的工具".data)], true⟩) ∧
    (tools = pre ++ t :: post → (∀ u ∈ pre, executorComputedMD5 u ≠ md5v) →
      executorComputedMD5 t = md5v →
      (∀ r, t.invoke params = Except.ok r →
        executorHandler stringify tools md5v params = ⟨[stringify r], false⟩) ∧
      (∀ e, t.invoke params = Except.error e →
        executorHandler stringify tools md5v params =
          ⟨[("工具执行失败: ".data) ++ e], true⟩)) := by
  constructor
  · intro h
    have hf : tools.find? (fun u => executorComputedMD5 u == md5v) = none := by
      rw [List.find?_eq_none]
      intro x hx
      simpa using h x hx
    simp [executorHandler, hf]
  · intro htools hpre ht
    have hf : tools.find? (fun u => executorComputedMD5 u == md5v) = some t := by
      rw [htools]
      apply find?_append_first
      · intro u hu
        simpa using hpre u hu
      · simpa using ht
    refine ⟨fun r hr => ?_, fun e he => ?_⟩
    · simp [executorHandler, hf, hr]
    · simp [executorHandler, hf, he]

/-- Witness for C9: dispatch on an unknown md5, on the first tool's md5
(success), and on the second tool's md5 (upstream throw). -/
theorem C9_executor_dispatch_witness :
    executorHandler c9Stringify [c9Tool1] (executorComputedMD5 c9Tool2) () =
      ⟨[("未找到md5为".data) ++ executorComputedMD5 c9Tool2 ++ ("的工具".data)], true⟩ ∧
    executorHandler c9Stringify [c9Tool1, c9Tool2] (executorComputedMD5 c9Tool1) () =
      ⟨[("null".data)], false⟩ ∧
    executorHandler c9Stringify [c9Tool1, c9Tool2] (executorComputedMD5 c9Tool2) () =
      ⟨[("工具执行失败: ".data) ++ ("boom".data)], true⟩ := by
  refine ⟨?_, ?_, ?_⟩
  · exact (C9_executor_dispatch c9Stringify [c9Tool1] [] [] c9Tool1
      (executorComputedMD5 c9Tool2) ()).1 (by decide)
  · exact ((C9_executor_dispatch c9Stringify [c9Tool1, c9Tool2] [] [c9Tool2] c9Tool1
      (executorComputedMD5 c9Tool1) ()).2 rfl (by simp) rfl).1 () rfl
  · exact ((C9_executor_dispatch c9Stringify [c9Tool1, c9Tool2] [c9Tool1] [] c9Tool2
      (executorComputedMD5 c9Tool2) ()).2 rfl (by decide) rfl).2 ("boom".data) rfl

/-- C1: the claim fails on the code.  The WHERE clause builds
`tool_name LIKE '{server}__%'`, and SQLite's `_` is a single-character
wildcard, so with servers `a` and `aa` both holding tool `x` the search
filtered to `["a"]` does return `aa__x`, whose name does not literally
start with `a__`.  (Both stored vectors and the query are the unit vector
`[1, 0]`, so both rows pass the 0.1 similarity threshold.) -/
theorem C1_filter_wildcard_leak :
    (((searchSimilarVectors cosDistUnit c1DB [1, 0] 5 (1/10) (some [("a".data)])).map
        (fun r => r.tool_name)).contains ("aa__x".data) = true) ∧
    startsWithLit ("a__".data) ("aa__x".data) = false ∧
    sqliteLike (("a".data) ++ ("__%".data)) ("aa__x".data) = true ∧
    dotQ [1, 0] [1, 0] = 1 := by decide

/-- C5: the claim is right and the code is wrong.  Upserting a tool whose
`(tool_md5, model_name)` already exists updates the record but still
inserts a fresh vector row and a fresh mapping row, leaving the record
linked to two vectors.  The deletion path, by contrast, does cascade
record, mapping and vector rows exactly as claimed. -/
theorem C5_upsert_duplicate_vector :
    c5DB2.tool_vectors.length = 1 ∧
    (c5DB2.tool_mapping.filter (fun mp => mp.2 == 1)).length = 2 ∧
    c5DB2.vec_tool_embeddings.length = 2 ∧
    ((deleteToolVector c5DB2 (generateToolMD5 ("t".data) ("d".data)) (some ("m".data))).1.tool_vectors = [] ∧
     (deleteToolVector c5DB2 (generateToolMD5 ("t".data) ("d".data)) (some ("m".data))).1.tool_mapping = [] ∧
     (deleteToolVector c5DB2 (generateToolMD5 ("t".data) ("d".data)) (some ("m".data))).1.vec_tool_embeddings = [] ∧
     (deleteToolVector c5DB2 (generateToolMD5 ("t".data) ("d".data)) (some ("m".data))).2 = 1) := by
  decide

/-- C7: the claim is right and the code is wrong.  The generator
`Math.random().toString(36).substring(2, 8)` is not always six characters:
for the attainable draw `0.5` the rendered string is `0.i`, so the
generated session id is the single character `i`. -/
theorem C7_short_session_id :
    genSessionId (1/2) = ("i".data) ∧ (genSessionId (1/2)).length ≠ 6 := by decide

/-- C6: the claim fails on the code.  With `k` already indexed and the
catalog `[k, i]` where `sim(vec k, vec i) = 0.96`, the first run's
near-duplicate cleanup deletes `k` while saving `i`; the second run over
the unchanged catalog then finds `k` missing, re-indexes it and deletes
`i` — writes, not zero. -/
theorem C6_counterexample_second_run_writes :
    (c6Run1.db.tool_vectors.map (fun r => r.tool_name) = [("i".data)]) ∧
    c6Run2.saveResults ≠ [] ∧ c6Run2.deletedTotal = 1 ∧ c6Run2.db ≠ c6Run1.db ∧
    dotQ [1, 0] [24/25, 7/25] = 24/25 ∧ dotQ [24/25, 7/25] [24/25, 7/25] = 1 := by
  decide

/-- C6 (amended): a run of the indexer over a catalog each of whose named
tools is already present under `(tool_md5, model_name)` — in particular a
re-run whose previous run deleted no catalog tool — performs zero database
writes: every tool is skipped by the existence check and the run returns
with the database untouched, no saves and no deletions. -/
theorem C6_reindex_no_writes (dist : List ℚ → List ℚ → ℚ) (vectorize : JStr → List ℚ)
    (deleteFails : JStr → Bool) (db : DB) (tools : List MCPToolInfoM) (modelName : JStr)
    (h : ∀ t ∈ tools, mcpToolName t ≠ [] →
      (getToolByMD5 db (generateToolMD5 (mcpToolName t) (mcpToolDesc t)) modelName).isSome = true) :
    indexMCPTools dist vectorize deleteFails db tools modelName = ⟨db, [], 0⟩ := by
  have hfil : tools.filter (fun t =>
      mcpToolName t != [] &&
        (getToolByMD5 db (generateToolMD5 (mcpToolName t) (mcpToolDesc t)) modelName).isNone) = [] := by
    rw [List.filter_eq_nil_iff]
    intro t ht hcon
    rw [Bool.and_eq_true] at hcon
    obtain ⟨h1, h2⟩ := hcon
    have hn : mcpToolName t ≠ [] := by simpa using h1
    have hs := h t ht hn
    rw [Option.isNone_iff_eq_none.1 h2] at hs
    simp at hs
  simp [indexMCPTools, hfil]

/-- Witness for C6 at a concrete state: the catalog `[k]` against a
database that already holds `k` produces no writes. -/
theorem C6_reindex_no_writes_witness :
    indexMCPTools cosDistUnit c6Vectorize noDeleteFail c6DB0 [c6ToolK] ("m".data) =
      ⟨c6DB0, [], 0⟩ :=
  C6_reindex_no_writes cosDistUnit c6Vectorize noDeleteFail c6DB0 [c6ToolK] ("m".data)
    (by decide)

-- Against the empty database every recommendation pipeline returns nothing.
theorem recommendTools_emptyDB (dist : List ℚ → List ℚ → ℚ) (vectorize : JStr → List ℚ)
    (availableTools : List MCPToolInfoM) (query : JStr) (topK : Nat) (threshold : ℚ)
    (serverNames : Option (List JStr)) :
    recommendTools dist vectorize emptyDB availableTools query topK threshold serverNames = [] := by
  simp [recommendTools, searchSimilarVectors, dbJoin, emptyDB, sortByDist]

-- Unfolding of the handler when the session id is kept.
theorem retrieverHandler_reuse (search : JStr → List RecTool) (hist : History)
    (descriptions : List JStr) (sessionId freshId enhanced : JStr)
    (hneed : sessionNeedsNew hist sessionId = false) :
    retrieverHandler search hist descriptions sessionId freshId enhanced =
      (⟨sessionId,
        retrieverNewTools search (knownMD5List hist sessionId) descriptions,
        retrieverKnownTools search (knownMD5List hist sessionId) descriptions,
        countNew (retrieverNewTools search (knownMD5List hist sessionId) descriptions),
        countKnown (retrieverKnownTools search (knownMD5List hist sessionId) descriptions),
        (knownMD5List hist sessionId).dedup.length +
          countNew (retrieverNewTools search (knownMD5List hist sessionId) descriptions),
        none⟩,
       if retrieverNewTools search (knownMD5List hist sessionId) descriptions ≠ [] then
         if retrieverToRecord
             (retrieverNewTools search (knownMD5List hist sessionId) descriptions) ≠ [] then
           recordSessionToolRetrievalBatch hist sessionId
             (retrieverToRecord (retrieverNewTools search (knownMD5List hist sessionId) descriptions))
         else hist
       else hist) := by
  simp only [retrieverHandler, hneed, Bool.false_eq_true, if_false]

-- Unfolding of the handler when a fresh session id is generated.
theorem retrieverHandler_fresh (search : JStr → List RecTool) (hist : History)
    (descriptions : List JStr) (sessionId freshId enhanced : JStr)
    (hneed : sessionNeedsNew hist sessionId = true) :
    retrieverHandler search hist descriptions sessionId freshId enhanced =
      (⟨freshId,
        retrieverNewTools search (knownMD5List hist freshId) descriptions,
        retrieverKnownTools search (knownMD5List hist freshId) descriptions,
        countNew (retrieverNewTools search (knownMD5List hist freshId) descriptions),
        countKnown (retrieverKnownTools search (knownMD5List hist freshId) descriptions),
        (knownMD5List hist freshId).dedup.length +
          countNew (retrieverNewTools search (knownMD5List hist freshId) descriptions),
        some enhanced⟩,
       if retrieverNewTools search (knownMD5List hist freshId) descriptions ≠ [] then
         if retrieverToRecord
             (retrieverNewTools search (knownMD5List hist freshId) descriptions) ≠ [] then
           recordSessionToolRetrievalBatch hist freshId
             (retrieverToRecord (retrieverNewTools search (knownMD5List hist freshId) descriptions))
         else hist
       else hist) := by
  simp only [retrieverHandler, hneed, if_true]

theorem retrieverNewTools_of_nil_search (search : JStr → List RecTool) (known : List JStr)
    (ds : List JStr) (hs : ∀ d, search d = []) :
    retrieverNewTools search known ds = [] := by
  rw [retrieverNewTools, List.map_eq_nil_iff, List.filter_eq_nil_iff]
  intro p _
  simp [newForQuery, hs p.2]

theorem retrieverKnownTools_of_nil_search (search : JStr → List RecTool) (known : List JStr)
    (ds : List JStr) (hs : ∀ d, search d = []) :
    retrieverKnownTools search known ds = [] := by
  rw [retrieverKnownTools, List.map_eq_nil_iff, List.filter_eq_nil_iff]
  intro p _
  simp [knownForQuery, hs p.2]

/-- C8: the claim fails on the code.  With zero servers
`getEnhancedServerDescription` returns the empty string, so the
first-time response carries `server_description = ""` — present but
empty, not non-empty as claimed.  The rest of the scenario behaves as
claimed (empty tool lists, fresh six-character id for this draw). -/
theorem C8_counterexample_empty_description :
    c8Result.1.new_tools = [] ∧ c8Result.1.known_tools = [] ∧
    c8Result.1.session_id.length = 6 ∧
    c8Result.1.server_description = some [] := by decide

/-- C8 (amended): with an empty catalog (no rows, no live tools, no
servers) and an empty session id, Retrieve returns empty `new_tools` and
`known_tools`, the freshly generated session id (six characters whenever
the random draw renders at least six base-36 digits), and an *empty*
`server_description` (present because the session is first-time). -/
theorem C8_empty_catalog_retrieve (dist : List ℚ → List ℚ → ℚ) (vectorize : JStr → List ℚ)
    (descriptions : List JStr) (r : ℚ) (hr : (genSessionId r).length = 6) :
    ((retrieverHandler (fun d => recommendTools dist vectorize emptyDB [] d 5 (1/10) none)
        [] descriptions [] (genSessionId r) (getEnhancedServerDescription [] [])).1.new_tools = []) ∧
    ((retrieverHandler (fun d => recommendTools dist vectorize emptyDB [] d 5 (1/10) none)
        [] descriptions [] (genSessionId r) (getEnhancedServerDescription [] [])).1.known_tools = []) ∧
    ((retrieverHandler (fun d => recommendTools dist vectorize emptyDB [] d 5 (1/10) none)
        [] descriptions [] (genSessionId r) (getEnhancedServerDescription [] [])).1.session_id
      = genSessionId r) ∧
    ((retrieverHandler (fun d => recommendTools dist vectorize emptyDB [] d 5 (1/10) none)
        [] descriptions [] (genSessionId r) (getEnhancedServerDescription [] [])).1.session_id.length
      = 6) ∧
    ((retrieverHandler (fun d => recommendTools dist vectorize emptyDB [] d 5 (1/10) none)
        [] descriptions [] (genSessionId r) (getEnhancedServerDescription [] [])).1.server_description
      = some (getEnhancedServerDescription [] [])) ∧
    getEnhancedServerDescription [] [] = [] := by
  have hs : ∀ d, recommendTools dist vectorize emptyDB [] d 5 (1/10) none = ([] : List RecTool) :=
    fun d => recommendTools_emptyDB dist vectorize [] d 5 (1/10) none
  have hneed : sessionNeedsNew [] [] = true := rfl
  have hnew := retrieverNewTools_of_nil_search
    (fun d => recommendTools dist vectorize emptyDB [] d 5 (1/10) none)
    (knownMD5List [] (genSessionId r)) descriptions hs
  have hknown := retrieverKnownTools_of_nil_search
    (fun d => recommendTools dist vectorize emptyDB [] d 5 (1/10) none)
    (knownMD5List [] (genSessionId r)) descriptions hs
  rw [retrieverHandler_fresh _ _ _ _ _ _ hneed]
  exact ⟨hnew, hknown, rfl, hr, rfl, rfl⟩

/-- Witness for C8 at the concrete draw `2⁻³⁰` (base-36 expansion
`0.000002...`, so the id is the six characters `000002`). -/
theorem C8_empty_catalog_retrieve_witness :
    ((retrieverHandler (fun d => recommendTools cosDistUnit c8Vectorize emptyDB [] d 5 (1/10) none)
        [] [("anything".data)] [] (genSessionId (mkRat 1 1073741824))
        (getEnhancedServerDescription [] [])).1.new_tools = []) ∧
    ((retrieverHandler (fun d => recommendTools cosDistUnit c8Vectorize emptyDB [] d 5 (1/10) none)
        [] [("anything".data)] [] (genSessionId (mkRat 1 1073741824))
        (getEnhancedServerDescription [] [])).1.known_tools = []) ∧
    ((retrieverHandler (fun d => recommendTools cosDistUnit c8Vectorize emptyDB [] d 5 (1/10) none)
        [] [("anything".data)] [] (genSessionId (mkRat 1 1073741824))
        (getEnhancedServerDescription [] [])).1.session_id
      = genSessionId (mkRat 1 1073741824)) ∧
    ((retrieverHandler (fun d => recommendTools cosDistUnit c8Vectorize emptyDB [] d 5 (1/10) none)
        [] [("anything".data)] [] (genSessionId (mkRat 1 1073741824))
        (getEnhancedServerDescription [] [])).1.session_id.length = 6) ∧
    ((retrieverHandler (fun d => recommendTools cosDistUnit c8Vectorize emptyDB [] d 5 (1/10) none)
        [] [("anything".data)] [] (genSessionId (mkRat 1 1073741824))
        (getEnhancedServerDescription [] [])).1.server_description
      = some (getEnhancedServerDescription [] [])) ∧
    getEnhancedServerDescription [] [] = [] :=
  C8_empty_catalog_retrieve cosDistUnit c8Vectorize [("anything".data)] (mkRat 1 1073741824)
    (by decide)

/-- C2: the claim fails on the code as stated.  When the supplied session
id has no recorded history, the handler records the new tools under a
freshly generated id, so a second call with the *same input* session id
regenerates again and returns the same tools as new instead of 0. -/
theorem C2_counterexample_unknown_session :
    c2Call1.1.new_tools_count = 1 ∧
    ¬(c2Call2.1.new_tools_count = 0 ∧ 1 ≤ c2Call2.1.known_tools_count) := by decide

-- Session-history helper lemmas.
theorem snd_mem_enumFrom {β} {l : List β} {n : Nat} {p : Nat × β}
    (h : p ∈ l.enumFrom n) : p.2 ∈ l := by
  induction l generalizing n with
  | nil => cases h
  | cons a l ih =>
    rw [List.enumFrom_cons] at h
    rcases List.mem_cons.1 h with h | h
    · rw [h]
      exact List.mem_cons_self _ _
    · exact List.mem_cons_of_mem _ (ih h)

theorem snd_mem_enum {β} {l : List β} {p : Nat × β} (h : p ∈ l.enum) : p.2 ∈ l :=
  snd_mem_enumFrom h

theorem mem_enumFrom_of_mem {β} {l : List β} {a : β} (h : a ∈ l) (n : Nat) :
    ∃ i, (i, a) ∈ l.enumFrom n := by
  induction l generalizing n with
  | nil => cases h
  | cons b l ih =>
    rw [List.enumFrom_cons]
    rcases List.mem_cons.1 h with h | h
    · exact ⟨n, by simp [h]⟩
    · obtain ⟨i, hi⟩ := ih h (n + 1)
      exact ⟨i, List.mem_cons_of_mem _ hi⟩

theorem mem_enum_of_mem {β} {l : List β} {a : β} (h : a ∈ l) : ∃ i, (i, a) ∈ l.enum :=
  mem_enumFrom_of_mem h 0

theorem knownMD5List_contains_of {h : History} {sid m : JStr}
    (hex : ∃ e ∈ h, e.session_id = sid ∧ e.tool_md5 = m) :
    (knownMD5List h sid).contains m = true := by
  obtain ⟨e, he, h1, h2⟩ := hex
  have hm : m ∈ knownMD5List h sid := by
    rw [knownMD5List]
    exact List.mem_map.2 ⟨e, List.mem_filter.2 ⟨he, by simp [h1]⟩, h2⟩
  exact List.elem_iff.2 hm

theorem exists_of_knownMD5List_contains {h : History} {sid m : JStr}
    (hc : (knownMD5List h sid).contains m = true) :
    ∃ e ∈ h, e.session_id = sid ∧ e.tool_md5 = m := by
  have hm : m ∈ knownMD5List h sid := List.elem_iff.1 hc
  rw [knownMD5List] at hm
  obtain ⟨e, hef, hm5⟩ := List.mem_map.1 hm
  obtain ⟨heh, hsid⟩ := List.mem_filter.1 hef
  exact ⟨e, heh, by simpa using hsid, hm5⟩

theorem getSessionHistory_ne_nil {h : History} {e : HistEntry} {sid : JStr}
    (he : e ∈ h) (hs : e.session_id = sid) : getSessionHistory h sid ≠ [] := by
  have hm : e ∈ getSessionHistory h sid := List.mem_filter.2 ⟨he, by simp [hs]⟩
  intro hnil
  rw [hnil] at hm
  cases hm

theorem mem_recordOne {h : History} {e : HistEntry} (he : e ∈ h) (sid m n : JStr) :
    e ∈ recordSessionToolRetrieval h sid m n := by
  unfold recordSessionToolRetrieval
  split
  · exact he
  · exact List.mem_append_left _ he

theorem recordBatch_cons (h : History) (sid : JStr) (t : JStr × JStr)
    (ts : List (JStr × JStr)) :
    recordSessionToolRetrievalBatch h sid (t :: ts) =
      recordSessionToolRetrievalBatch (recordSessionToolRetrieval h sid t.1 t.2) sid ts := rfl

theorem mem_recordBatch {h : History} {e : HistEntry} (he : e ∈ h) (sid : JStr)
    (ts : List (JStr × JStr)) : e ∈ recordSessionToolRetrievalBatch h sid ts := by
  induction ts generalizing h with
  | nil => exact he
  | cons t ts ih =>
    rw [recordBatch_cons]
    exact ih (mem_recordOne he sid t.1 t.2)

theorem recordOne_adds (h : History) (sid m n : JStr) :
    ∃ e ∈ recordSessionToolRetrieval h sid m n, e.session_id = sid ∧ e.tool_md5 = m := by
  unfold recordSessionToolRetrieval
  split
  case isTrue hc =>
    obtain ⟨e, he, hp⟩ := List.any_eq_true.1 hc
    rw [Bool.and_eq_true] at hp
    exact ⟨e, he, by simpa using hp.1, by simpa using hp.2⟩
  case isFalse _ =>
    exact ⟨⟨sid, m, n⟩, List.mem_append_right _ (List.mem_singleton.2 rfl), rfl, rfl⟩

theorem recordBatch_adds (h : History) (sid : JStr) (ts : List (JStr × JStr))
    {m n : JStr} (hmn : (m, n) ∈ ts) :
    ∃ e ∈ recordSessionToolRetrievalBatch h sid ts, e.session_id = sid ∧ e.tool_md5 = m := by
  induction ts generalizing h with
  | nil => cases hmn
  | cons t ts ih =>
    rw [recordBatch_cons]
    rcases List.mem_cons.1 hmn with heq | hmem
    · obtain ⟨e, he, h1, h2⟩ := recordOne_adds h sid t.1 t.2
      refine ⟨e, mem_recordBatch he sid ts, h1, ?_⟩
      rw [h2, ← heq]
    · exact ih _ hmem

-- Counting lemmas for the handler's summary fields.
theorem foldl_add_count {β} (f : β → Nat) (l : List β) (n : Nat) :
    l.foldl (fun s q => s + f q) n = n + (l.map f).sum := by
  induction l generalizing n with
  | nil => simp
  | cons a l ih => simp [ih, Nat.add_assoc]

theorem countNew_eq (l : List QueryNew) :
    countNew l = (l.map (fun q => q.tools.length)).sum := by
  simpa using foldl_add_count (fun q : QueryNew => q.tools.length) l 0

theorem countKnown_eq (l : List QueryKnown) :
    countKnown l = (l.map (fun q => q.tools.length)).sum := by
  simpa using foldl_add_count (fun q : QueryKnown => q.tools.length) l 0

theorem sum_lengths_filter {β γ} (f : β → List γ) (l : List β) :
    ((l.filter (fun p => !(f p).isEmpty)).map (fun p => (f p).length)).sum
      = (l.map (fun p => (f p).length)).sum := by
  induction l with
  | nil => rfl
  | cons a l ih =>
    by_cases h : (f a).isEmpty = true
    · have h0 : (f a).length = 0 := by
        rw [List.isEmpty_iff] at h
        simp [h]
      simp [List.filter_cons, h, ih, h0]
    · simp [List.filter_cons, h, ih]

theorem newForQuery_length_le (k : List JStr) (c : List RecTool) :
    (newForQuery k c).length ≤ c.length := by
  rw [newForQuery, List.length_map]
  calc (c.enum.filter (fun p => !(k.contains p.2.tool_md5))).length
      ≤ c.enum.length := List.length_filter_le _ _
    _ = c.length := List.enum_length

theorem knownForQuery_length_full (k : List JStr) (c : List RecTool)
    (hall : ∀ r ∈ c, k.contains r.tool_md5 = true) :
    (knownForQuery k c).length = c.length := by
  rw [knownForQuery, List.length_map,
    List.filter_eq_self.2 (fun p hp => hall p.2 (snd_mem_enum hp)), List.enum_length]

/-- C2 (amended): for a session id that is non-empty and already has
recorded history when the first call runs, a second Retrieve with the same
session id and descriptions (deterministic search, no interleaving) returns
zero new tools and a known-tool count at least the first call's new-tool
count; and every tool the first call reports as new is recorded in the
session history that the first call leaves behind, before its response is
composed. -/
theorem C2_session_monotonicity (search : JStr → List RecTool) (hist : History)
    (descriptions : List JStr) (sessionId freshId1 freshId2 enh1 enh2 : JStr)
    (hsid : sessionId ≠ [])
    (hhist : getSessionHistory hist sessionId ≠ []) :
    ((retrieverHandler search
        (retrieverHandler search hist descriptions sessionId freshId1 enh1).2
        descriptions sessionId freshId2 enh2).1.new_tools_count = 0) ∧
    ((retrieverHandler search hist descriptions sessionId freshId1 enh1).1.new_tools_count ≤
      (retrieverHandler search
        (retrieverHandler search hist descriptions sessionId freshId1 enh1).2
        descriptions sessionId freshId2 enh2).1.known_tools_count) ∧
    (∀ q ∈ (retrieverHandler search hist descriptions sessionId freshId1 enh1).1.new_tools,
      ∀ t ∈ q.tools,
        ∃ e ∈ (retrieverHandler search hist descriptions sessionId freshId1 enh1).2,
          e.session_id = sessionId ∧ e.tool_md5 = t.md5) := by
  have hneed1 : sessionNeedsNew hist sessionId = false := by
    simp [sessionNeedsNew, List.isEmpty_iff, hsid, hhist]
  have hr1 := retrieverHandler_reuse search hist descriptions sessionId freshId1 enh1 hneed1
  set known1 := knownMD5List hist sessionId with hknown1def
  set NT1 := retrieverNewTools search known1 descriptions with hNT1def
  set hist1 := (retrieverHandler search hist descriptions sessionId freshId1 enh1).2
    with hhist1def
  have hist1_eq : hist1 =
      if NT1 ≠ [] then
        if retrieverToRecord NT1 ≠ [] then
          recordSessionToolRetrievalBatch hist sessionId (retrieverToRecord NT1)
        else hist
      else hist := by
    rw [hhist1def, hr1]
  -- every entry survives the first call's recording step
  have hmono : ∀ e ∈ hist, e ∈ hist1 := by
    intro e he
    rw [hist1_eq]
    split
    · split
      · exact mem_recordBatch he _ _
      · exact he
    · exact he
  obtain ⟨e0, he0⟩ := List.exists_mem_of_ne_nil _ hhist
  obtain ⟨he0h, he0p⟩ := List.mem_filter.1 he0
  have he0sid : e0.session_id = sessionId := by simpa using he0p
  have hneed2 : sessionNeedsNew hist1 sessionId = false := by
    simp [sessionNeedsNew, List.isEmpty_iff, hsid,
      getSessionHistory_ne_nil (hmono e0 he0h) he0sid]
  have hr2 := retrieverHandler_reuse search hist1 descriptions sessionId freshId2 enh2 hneed2
  -- every candidate of every description is known to the second call
  have hcand : ∀ d ∈ descriptions, ∀ rec ∈ search d,
      (knownMD5List hist1 sessionId).contains rec.tool_md5 = true := by
    intro d hd rec hrec
    by_cases hc : known1.contains rec.tool_md5 = true
    · obtain ⟨e, he, h1, h2⟩ := exists_of_knownMD5List_contains hc
      exact knownMD5List_contains_of ⟨e, hmono e he, h1, h2⟩
    · have hcf : known1.contains rec.tool_md5 = false := by
        cases hcb : known1.contains rec.tool_md5
        · rfl
        · exact absurd hcb hc
      obtain ⟨j, hj⟩ := mem_enum_of_mem hrec
      have hent : (⟨j + 1, rec.tool_name, rec.tool_md5, rec.description, rec.similarity⟩ :
          NewToolEntry) ∈ newForQuery known1 (search d) := by
        have hnm : rec.tool_md5 ∉ known1 := fun hmem => by
          have hct : known1.contains rec.tool_md5 = true := List.elem_iff.2 hmem
          rw [hcf] at hct
          exact Bool.false_ne_true hct
        rw [newForQuery]
        exact List.mem_map.2 ⟨(j, rec), List.mem_filter.2 ⟨hj, by simpa using hnm⟩, rfl⟩
      have hne : ¬(newForQuery known1 (search d)).isEmpty = true := by
        rw [List.isEmpty_iff]
        intro h0
        rw [h0] at hent
        cases hent
      obtain ⟨i, hi⟩ := mem_enum_of_mem hd
      have hq : (⟨i, d, newForQuery known1 (search d)⟩ : QueryNew) ∈ NT1 := by
        rw [hNT1def, retrieverNewTools]
        exact List.mem_map.2 ⟨(i, d), List.mem_filter.2 ⟨hi, by simpa using hne⟩, rfl⟩
      have hrecd : (rec.tool_md5, rec.tool_name) ∈ retrieverToRecord NT1 := by
        rw [retrieverToRecord]
        exact List.mem_flatMap.2 ⟨_, hq, List.mem_map.2 ⟨_, hent, rfl⟩⟩
      have hNT1ne : NT1 ≠ [] := by
        intro h0
        rw [h0] at hq
        cases hq
      have htrne : retrieverToRecord NT1 ≠ [] := by
        intro h0
        rw [h0] at hrecd
        cases hrecd
      have h1eq : hist1 = recordSessionToolRetrievalBatch hist sessionId
          (retrieverToRecord NT1) := by
        rw [hist1_eq, if_pos hNT1ne, if_pos htrne]
      obtain ⟨e, he, h1, h2⟩ := recordBatch_adds hist sessionId (retrieverToRecord NT1) hrecd
      rw [h1eq]
      exact knownMD5List_contains_of ⟨e, he, h1, h2⟩
  -- the second call has no new tools at all
  have hNT2 : retrieverNewTools search (knownMD5List hist1 sessionId) descriptions = [] := by
    rw [retrieverNewTools, List.map_eq_nil_iff, List.filter_eq_nil_iff]
    intro p hp
    have hq : newForQuery (knownMD5List hist1 sessionId) (search p.2) = [] := by
      rw [newForQuery, List.map_eq_nil_iff, List.filter_eq_nil_iff]
      intro c hc
      have hm : c.2.tool_md5 ∈ knownMD5List hist1 sessionId :=
        List.elem_iff.1 (hcand p.2 (snd_mem_enum hp) c.2 (snd_mem_enum hc))
      simp [hm]
    simp [hq]
  refine ⟨?_, ?_, ?_⟩
  · rw [hr2]
    show countNew (retrieverNewTools search (knownMD5List hist1 sessionId) descriptions) = 0
    rw [hNT2]
    rfl
  · rw [hr1, hr2]
    show countNew NT1 ≤
      countKnown (retrieverKnownTools search (knownMD5List hist1 sessionId) descriptions)
    rw [countNew_eq, countKnown_eq, hNT1def, retrieverNewTools, retrieverKnownTools,
      List.map_map, List.map_map]
    have comp1 : ((fun q : QueryNew => q.tools.length) ∘ fun p : Nat × JStr =>
        (⟨p.1, p.2, newForQuery known1 (search p.2)⟩ : QueryNew))
        = fun p : Nat × JStr => (newForQuery known1 (search p.2)).length := rfl
    have comp2 : ((fun q : QueryKnown => q.tools.length) ∘ fun p : Nat × JStr =>
        (⟨p.1, p.2, knownForQuery (knownMD5List hist1 sessionId) (search p.2)⟩ : QueryKnown))
        = fun p : Nat × JStr =>
            (knownForQuery (knownMD5List hist1 sessionId) (search p.2)).length := rfl
    rw [comp1, comp2]
    rw [sum_lengths_filter (fun p : Nat × JStr => newForQuery known1 (search p.2)),
      sum_lengths_filter (fun p : Nat × JStr =>
        knownForQuery (knownMD5List hist1 sessionId) (search p.2))]
    apply List.sum_le_sum
    intro p hp
    calc (newForQuery known1 (search p.2)).length
        ≤ (search p.2).length := newForQuery_length_le _ _
      _ = (knownForQuery (knownMD5List hist1 sessionId) (search p.2)).length :=
          (knownForQuery_length_full _ _
            (fun rec hrec => hcand p.2 (snd_mem_enum hp) rec hrec)).symm
  · intro q hq t ht
    rw [hr1] at hq
    have hq' : q ∈ NT1 := hq
    have hrecd : (t.md5, t.tool_name) ∈ retrieverToRecord NT1 := by
      rw [retrieverToRecord]
      exact List.mem_flatMap.2 ⟨q, hq', List.mem_map.2 ⟨t, ht, rfl⟩⟩
    have hNT1ne : NT1 ≠ [] := by
      intro h0
      rw [h0] at hq'
      cases hq'
    have htrne : retrieverToRecord NT1 ≠ [] := by
      intro h0
      rw [h0] at hrecd
      cases hrecd
    have h1eq : hist1 = recordSessionToolRetrievalBatch hist sessionId
        (retrieverToRecord NT1) := by
      rw [hist1_eq, if_pos hNT1ne, if_pos htrne]
    obtain ⟨e, he, h1, h2⟩ := recordBatch_adds hist sessionId (retrieverToRecord NT1) hrecd
    rw [h1eq]
    exact ⟨e, he, h1, h2⟩

/-- Witness for C2 at a concrete state: session `abc123` already has
history, one description, a one-tool deterministic search. -/
theorem C2_session_monotonicity_witness :
    ((retrieverHandler c2Search
        (retrieverHandler c2Search c2Hist0 [("q".data)] ("abc123".data) ("x1".data) []).2
        [("q".data)] ("abc123".data) ("x2".data) []).1.new_tools_count = 0) ∧
    ((retrieverHandler c2Search c2Hist0 [("q".data)] ("abc123".data) ("x1".data) []).1.new_tools_count ≤
      (retrieverHandler c2Search
        (retrieverHandler c2Search c2Hist0 [("q".data)] ("abc123".data) ("x1".data) []).2
        [("q".data)] ("abc123".data) ("x2".data) []).1.known_tools_count) ∧
    (∀ q ∈ (retrieverHandler c2Search c2Hist0 [("q".data)] ("abc123".data) ("x1".data) []).1.new_tools,
      ∀ t ∈ q.tools,
        ∃ e ∈ (retrieverHandler c2Search c2Hist0 [("q".data)] ("abc123".data) ("x1".data) []).2,
          e.session_id = ("abc123".data) ∧ e.tool_md5 = t.md5) :=
  C2_session_monotonicity c2Search c2Hist0 [("q".data)] ("abc123".data) ("x1".data)
    ("x2".data) [] [] (by decide) (by decide)

/-- C3: the claim fails on the code as stated.  The candidate search runs
with no model filter, but `deleteToolVector` is scoped to
`(tool_md5, model_name)`: a tool at similarity 0.96 recorded under a
different model name is identified as superseded, yet zero rows are
deleted and its record survives the run. -/
theorem C3_counterexample_cross_model :
    ((searchSimilarVectors cosDistUnit c3DB
        (c6Vectorize (jsTrim (("i".data) ++ [' '] ++ ("di".data)))) 10 (7/10) none).map
      (fun s => (s.tool_md5, s.model_name, s.similarity))
      = [(generateToolMD5 ("k".data) ("dk".data), ("other".data), 24/25)]) ∧
    ((96 : ℚ)/100 ≤ 24/25) ∧
    c3Run.deletedTotal = 0 ∧
    ((c3Run.db.tool_vectors.filter (fun tv =>
        tv.tool_md5 == generateToolMD5 ("k".data) ("dk".data))).length = 1) := by decide

-- Structural lemmas about the deletion pass.
theorem shrinks_refl (db : DB) : Shrinks db db :=
  ⟨fun _ h => h, fun _ h => h, fun _ h => h, rfl, rfl⟩

theorem shrinks_trans {a b c : DB} (h1 : Shrinks a b) (h2 : Shrinks b c) : Shrinks a c :=
  ⟨fun r hr => h2.1 r (h1.1 r hr), fun m hm => h2.2.1 m (h1.2.1 m hm),
   fun v hv => h2.2.2.1 v (h1.2.2.1 v hv), h1.2.2.2.1.trans h2.2.2.2.1,
   h1.2.2.2.2.trans h2.2.2.2.2⟩

theorem deleteToolVector_neg_eq (db : DB) (m : JStr) (mo : Option JStr)
    (he : (delToolIds db m mo).isEmpty = true) :
    (deleteToolVector db m mo).1 = db := by
  rw [deleteToolVector, if_pos he]

theorem deleteToolVector_pos_eq (db : DB) (m : JStr) (mo : Option JStr)
    (he : (delToolIds db m mo).isEmpty = false) :
    (deleteToolVector db m mo).1 = { db with
      vec_tool_embeddings := db.vec_tool_embeddings.filter
        (fun v => !((delRids db (delToolIds db m mo)).contains v.1)),
      tool_mapping := db.tool_mapping.filter
        (fun mp => !((delToolIds db m mo).contains mp.2)),
      tool_vectors := db.tool_vectors.filter
        (fun tv => !(delMatchRow m mo tv)) } := by
  rw [deleteToolVector, if_neg (by simp [he])]

theorem deleteToolVector_shrinks (db : DB) (m : JStr) (mo : Option JStr) :
    Shrinks (deleteToolVector db m mo).1 db := by
  cases he : (delToolIds db m mo).isEmpty
  · rw [deleteToolVector_pos_eq db m mo he]
    exact ⟨fun r hr => (List.mem_filter.1 hr).1, fun mp hm => (List.mem_filter.1 hm).1,
      fun v hv => (List.mem_filter.1 hv).1, rfl, rfl⟩
  · rw [deleteToolVector_neg_eq db m mo he]
    exact shrinks_refl db

theorem mem_delToolIds {db : DB} {m : JStr} {mo : Option JStr} {row : ToolRow}
    (hrow : row ∈ db.tool_vectors) (hm : delMatchRow m mo row = true) :
    (delToolIds db m mo).contains row.id = true :=
  List.elem_iff.2 (List.mem_map.2 ⟨row, List.mem_filter.2 ⟨hrow, hm⟩, rfl⟩)

theorem mem_delRids {db : DB} {toolIds : List Nat} {mp : Nat × Nat}
    (hmp : mp ∈ db.tool_mapping) (hc : toolIds.contains mp.2 = true) :
    (delRids db toolIds).contains mp.1 = true :=
  List.elem_iff.2 (List.mem_map.2 ⟨mp, List.mem_filter.2 ⟨hmp, hc⟩, rfl⟩)

theorem delMatchRow_some {m mo : JStr} {row : ToolRow}
    (h1 : row.tool_md5 = m) (h2 : row.model_name = mo) :
    delMatchRow m (some mo) row = true := by
  simp [delMatchRow, h1, h2]

theorem pairedFor_init (db0 : DB) (m mo : JStr) : PairedFor db0 m mo db0 :=
  ⟨fun _ _ _ hrow _ _ _ => hrow, fun _ _ _ hmp _ hrow _ _ _ _ => ⟨hmp, hrow⟩⟩

theorem pairedFor_delete (db0 : DB) (m mo : JStr) (db : DB) (m' : JStr)
    (hp : PairedFor db0 m mo db) :
    PairedFor db0 m mo (deleteToolVector db m' (some mo)).1 := by
  cases he : (delToolIds db m' (some mo)).isEmpty
  case true =>
    rw [deleteToolVector_neg_eq db m' (some mo) he]
    exact hp
  case false =>
    rw [deleteToolVector_pos_eq db m' (some mo) he]
    constructor
    · intro mp hmp row hrow hm5 hmo hid
      obtain ⟨hmp0, hmpc⟩ := List.mem_filter.1 hmp
      have hrow' : row ∈ db.tool_vectors := hp.1 mp hmp0 row hrow hm5 hmo hid
      refine List.mem_filter.2 ⟨hrow', ?_⟩
      cases hmatch : delMatchRow m' (some mo) row
      · rfl
      · exfalso
        have hcont := mem_delToolIds hrow' hmatch
        rw [← hid] at hcont
        rw [hcont] at hmpc
        cases hmpc
    · intro ve hve mp0 hmp0 row hrow hm5 hmo hid hv1
      obtain ⟨hve0, hvec⟩ := List.mem_filter.1 hve
      obtain ⟨hmp0db, hrowdb⟩ := hp.2 ve hve0 mp0 hmp0 row hrow hm5 hmo hid hv1
      have hnid : (delToolIds db m' (some mo)).contains row.id = false := by
        cases hni : (delToolIds db m' (some mo)).contains row.id
        · rfl
        · exfalso
          have hrid := mem_delRids hmp0db (by rw [hid]; exact hni)
          rw [← hv1] at hrid
          rw [hrid] at hvec
          cases hvec
      constructor
      · refine List.mem_filter.2 ⟨hmp0db, ?_⟩
        rw [hid, hnid]
        rfl
      · refine List.mem_filter.2 ⟨hrowdb, ?_⟩
        cases hmatch : delMatchRow m' (some mo) row
        · rfl
        · exfalso
          have := mem_delToolIds hrowdb hmatch
          rw [this] at hnid
          cases hnid

theorem cleanFor_establish (db0 : DB) (m mo : JStr) (db : DB)
    (hp : PairedFor db0 m mo db) :
    CleanFor db0 m mo (deleteToolVector db m (some mo)).1 := by
  cases he : (delToolIds db m (some mo)).isEmpty
  case false =>
    rw [deleteToolVector_pos_eq db m (some mo) he]
    refine ⟨?_, ?_, ?_⟩
    · intro row hrow hcon
      obtain ⟨_, hpred⟩ := List.mem_filter.1 hrow
      rw [delMatchRow_some hcon.1 hcon.2] at hpred
      cases hpred
    · intro mp hmp row hrow hm5 hmo hid
      obtain ⟨hmpdb, hpred⟩ := List.mem_filter.1 hmp
      have hrowdb : row ∈ db.tool_vectors := hp.1 mp hmpdb row hrow hm5 hmo hid
      have hcont := mem_delToolIds hrowdb (delMatchRow_some hm5 hmo)
      rw [← hid] at hcont
      rw [hcont] at hpred
      cases hpred
    · intro ve hve mp0 hmp0 row hrow hm5 hmo hid hv1
      obtain ⟨hvedb, hvec⟩ := List.mem_filter.1 hve
      obtain ⟨hmp0db, hrowdb⟩ := hp.2 ve hvedb mp0 hmp0 row hrow hm5 hmo hid hv1
      have hcont := mem_delToolIds hrowdb (delMatchRow_some hm5 hmo)
      have hrid := mem_delRids hmp0db (by rw [hid]; exact hcont)
      rw [← hv1] at hrid
      rw [hrid] at hvec
      cases hvec
  case true =>
    rw [deleteToolVector_neg_eq db m (some mo) he]
    have hnone : ∀ row ∈ db.tool_vectors, delMatchRow m (some mo) row = false := by
      intro row hrow
      cases hmatch : delMatchRow m (some mo) row
      · rfl
      · exfalso
        have := mem_delToolIds hrow hmatch
        rw [List.isEmpty_iff.1 he] at this
        cases this
    refine ⟨?_, ?_, ?_⟩
    · intro row hrow hcon
      have := hnone row hrow
      rw [delMatchRow_some hcon.1 hcon.2] at this
      cases this
    · intro mp hmp row hrow hm5 hmo hid
      have hrowdb := hp.1 mp hmp row hrow hm5 hmo hid
      have := hnone row hrowdb
      rw [delMatchRow_some hm5 hmo] at this
      cases this
    · intro ve hve mp0 hmp0 row hrow hm5 hmo hid hv1
      obtain ⟨_, hrowdb⟩ := hp.2 ve hve mp0 hmp0 row hrow hm5 hmo hid hv1
      have := hnone row hrowdb
      rw [delMatchRow_some hm5 hmo] at this
      cases this

theorem cleanFor_of_shrinks (db0 : DB) (m mo : JStr) {a b : DB}
    (hs : Shrinks a b) (hc : CleanFor db0 m mo b) : CleanFor db0 m mo a :=
  ⟨fun row hr => hc.1 row (hs.1 row hr),
   fun mp hm => hc.2.1 mp (hs.2.1 mp hm),
   fun ve hv => hc.2.2 ve (hs.2.2.1 ve hv)⟩

theorem indexStepDelete_fst (deleteFails : JStr → Bool) (mo : JStr) (acc : DB × Nat)
    (old : SearchResult) :
    (indexStepDelete deleteFails mo acc old).1 =
      if deleteFails old.tool_md5 then acc.1
      else (deleteToolVector acc.1 old.tool_md5 (some mo)).1 := by
  rw [indexStepDelete]
  split
  · rfl
  · rfl

theorem indexStepDelete_shrinks (deleteFails : JStr → Bool) (mo : JStr) (acc : DB × Nat)
    (old : SearchResult) : Shrinks (indexStepDelete deleteFails mo acc old).1 acc.1 := by
  rw [indexStepDelete_fst]
  split
  · exact shrinks_refl _
  · exact deleteToolVector_shrinks _ _ _

theorem foldDelete_shrinks (deleteFails : JStr → Bool) (mo : JStr)
    (l : List SearchResult) (acc : DB × Nat) :
    Shrinks ((l.foldl (indexStepDelete deleteFails mo) acc)).1 acc.1 := by
  induction l generalizing acc with
  | nil => exact shrinks_refl _
  | cons a l ih =>
    rw [List.foldl_cons]
    exact shrinks_trans (ih _) (indexStepDelete_shrinks _ _ _ _)

theorem pairedFor_step (db0 : DB) (m mo : JStr) (deleteFails : JStr → Bool)
    (acc : DB × Nat) (old : SearchResult) (hp : PairedFor db0 m mo acc.1) :
    PairedFor db0 m mo (indexStepDelete deleteFails mo acc old).1 := by
  rw [indexStepDelete_fst]
  split
  · exact hp
  · exact pairedFor_delete db0 m mo acc.1 old.tool_md5 hp

theorem foldDelete_clean (deleteFails : JStr → Bool) (mo : JStr) (db0 : DB)
    (s : SearchResult) (l : List SearchResult) (acc : DB × Nat)
    (hs : s ∈ l) (hfail : deleteFails s.tool_md5 = false)
    (hp : PairedFor db0 s.tool_md5 mo acc.1) :
    CleanFor db0 s.tool_md5 mo ((l.foldl (indexStepDelete deleteFails mo) acc)).1 := by
  induction l generalizing acc with
  | nil => cases hs
  | cons a l ih =>
    rw [List.foldl_cons]
    rcases List.mem_cons.1 hs with heq | hmem
    · have hstep : CleanFor db0 s.tool_md5 mo (indexStepDelete deleteFails mo acc a).1 := by
        rw [indexStepDelete_fst, ← heq, hfail]
        simp only [Bool.false_eq_true, if_false]
        exact cleanFor_establish db0 s.tool_md5 mo acc.1 hp
      exact cleanFor_of_shrinks db0 s.tool_md5 mo (foldDelete_shrinks _ _ _ _) hstep
    · exact ih _ hmem (pairedFor_step _ _ _ _ _ _ hp)

-- Provenance of search results: every hit corresponds to a stored record.
theorem mem_of_mem_insertByDist {r x : SearchResult} {l : List SearchResult}
    (h : x ∈ insertByDist r l) : x = r ∨ x ∈ l := by
  induction l with
  | nil => simpa [insertByDist] using h
  | cons a l ih =>
    rw [insertByDist] at h
    split at h
    · rcases List.mem_cons.1 h with h | h
      · exact Or.inl h
      · exact Or.inr h
    · rcases List.mem_cons.1 h with h | h
      · exact Or.inr (by rw [h]; exact List.mem_cons_self _ _)
      · rcases ih h with h | h
        · exact Or.inl h
        · exact Or.inr (List.mem_cons_of_mem _ h)

theorem mem_of_mem_sortByDist {x : SearchResult} {l : List SearchResult}
    (h : x ∈ sortByDist l) : x ∈ l := by
  induction l with
  | nil => simp [sortByDist] at h
  | cons a l ih =>
    rw [sortByDist, List.foldr_cons] at h
    rcases mem_of_mem_insertByDist h with h | h
    · rw [h]
      exact List.mem_cons_self _ _
    · exact List.mem_cons_of_mem _ (ih h)

theorem searchSimilar_provenance (dist : List ℚ → List ℚ → ℚ) (db : DB) (q : List ℚ)
    (limit : Nat) (th : ℚ) (sn : Option (List JStr)) :
    ∀ s ∈ searchSimilarVectors dist db q limit th sn,
      ∃ tv ∈ db.tool_vectors, tv.tool_md5 = s.tool_md5 ∧ tv.model_name = s.model_name := by
  intro s hs
  rw [searchSimilarVectors] at hs
  have h2 := mem_of_mem_sortByDist (List.mem_of_mem_take hs)
  have h3 := (List.mem_filter.1 h2).1
  obtain ⟨x, hx, hxe⟩ := List.mem_map.1 h3
  obtain ⟨ve, _, hrest⟩ := List.mem_flatMap.1 hx
  obtain ⟨mp, _, hmm⟩ := List.mem_flatMap.1 hrest
  obtain ⟨tv, htv, hte⟩ := List.mem_map.1 hmm
  refine ⟨tv, (List.mem_filter.1 htv).1, ?_, ?_⟩
  · rw [← hxe, ← hte]
  · rw [← hxe, ← hte]

-- The insert branch of `saveToolVector`, characterized.
theorem saveToolVector_insert_eq (db : DB) (n d : JStr) (vec : List ℚ) (mo : JStr)
    (hfind : db.tool_vectors.find? (fun tv =>
        tv.tool_md5 == generateToolMD5 n d && tv.model_name == mo) = none) :
    saveToolVector db n d vec mo =
      ({ tool_vectors := db.tool_vectors ++
            [⟨db.next_tool_id, generateToolMD5 n d, mo, n, d⟩],
         vec_tool_embeddings := db.vec_tool_embeddings ++ [(db.next_vec_rowid, vec)],
         tool_mapping := (db.tool_mapping.filter (fun m => m.1 != db.next_vec_rowid)) ++
            [(db.next_vec_rowid, db.next_tool_id)],
         next_tool_id := db.next_tool_id + 1,
         next_vec_rowid := db.next_vec_rowid + 1 }, db.next_tool_id) := by
  rw [saveToolVector, hfind]
  rfl

theorem saveToolVector_insert_clean (db0 : DB) (m mo : JStr) (db : DB)
    (hwfRows : ∀ row ∈ db0.tool_vectors, row.id < db0.next_tool_id)
    (hwfMaps : ∀ mp ∈ db0.tool_mapping, mp.1 < db0.next_vec_rowid)
    (hcnt1 : db.next_tool_id = db0.next_tool_id)
    (hcnt2 : db.next_vec_rowid = db0.next_vec_rowid)
    (hclean : CleanFor db0 m mo db)
    (n d : JStr) (vec : List ℚ)
    (hfind : db.tool_vectors.find? (fun tv =>
        tv.tool_md5 == generateToolMD5 n d && tv.model_name == mo) = none)
    (hmd5 : generateToolMD5 n d ≠ m) :
    CleanFor db0 m mo (saveToolVector db n d vec mo).1 := by
  rw [saveToolVector_insert_eq db n d vec mo hfind]
  refine ⟨?_, ?_, ?_⟩
  · intro row hrow hcon
    rcases List.mem_append.1 hrow with h | h
    · exact hclean.1 row h hcon
    · rw [List.mem_singleton.1 h] at hcon
      exact hmd5 hcon.1
  · intro mp hmp row hrow hm5 hmo hid
    rcases List.mem_append.1 hmp with h | h
    · exact hclean.2.1 mp ((List.mem_filter.1 h).1) row hrow hm5 hmo hid
    · rw [List.mem_singleton.1 h] at hid
      have := hwfRows row hrow
      rw [← hid, hcnt1] at this
      exact lt_irrefl _ this
  · intro ve hve mp0 hmp0 row hrow hm5 hmo hid hv1
    rcases List.mem_append.1 hve with h | h
    · exact hclean.2.2 ve h mp0 hmp0 row hrow hm5 hmo hid hv1
    · rw [List.mem_singleton.1 h] at hv1
      have := hwfMaps mp0 hmp0
      rw [← hv1, hcnt2] at this
      exact lt_irrefl _ this

-- Unfolding of the single-tool indexer run.
theorem indexMCPTools_singleton_eq (dist : List ℚ → List ℚ → ℚ) (vectorize : JStr → List ℚ)
    (deleteFails : JStr → Bool) (db : DB) (t : MCPToolInfoM) (modelName : JStr)
    (hname : mcpToolName t ≠ [])
    (hnew : getToolByMD5 db (generateToolMD5 (mcpToolName t) (mcpToolDesc t)) modelName = none) :
    indexMCPTools dist vectorize deleteFails db [t] modelName =
      ⟨(saveToolVector
          ((identifySimilarToolsToDelete (mcpToolName t) (mcpToolDesc t)
            (searchSimilarVectors dist db
              (vectorize (jsTrim (mcpToolName t ++ [' '] ++ mcpToolDesc t))) 10 (7/10) none)
            (96/100)).foldl (indexStepDelete deleteFails modelName) (db, 0)).1
          (mcpToolName t) (mcpToolDesc t)
          (vectorize (jsTrim (mcpToolName t ++ [' '] ++ mcpToolDesc t))) modelName).1,
       [(saveToolVector
          ((identifySimilarToolsToDelete (mcpToolName t) (mcpToolDesc t)
            (searchSimilarVectors dist db
              (vectorize (jsTrim (mcpToolName t ++ [' '] ++ mcpToolDesc t))) 10 (7/10) none)
            (96/100)).foldl (indexStepDelete deleteFails modelName) (db, 0)).1
          (mcpToolName t) (mcpToolDesc t)
          (vectorize (jsTrim (mcpToolName t ++ [' '] ++ mcpToolDesc t))) modelName).2],
       ((identifySimilarToolsToDelete (mcpToolName t) (mcpToolDesc t)
            (searchSimilarVectors dist db
              (vectorize (jsTrim (mcpToolName t ++ [' '] ++ mcpToolDesc t))) 10 (7/10) none)
            (96/100)).foldl (indexStepDelete deleteFails modelName) (db, 0)).2⟩ := by
  have hpred : ((mcpToolName t != []) &&
      (getToolByMD5 db (generateToolMD5 (mcpToolName t) (mcpToolDesc t)) modelName).isNone)
        = true := by
    simp [hname, hnew]
  simp [indexMCPTools, hpred, indexLoopStep, saveToolVectorsBatch]

/-- C3 (amended): for a tool that is new under `(tool_md5, model_name)`,
the indexer searches with the new tool's vector at `top_k = 10`,
`threshold = 0.70` and no server filter; every candidate at similarity ≥
0.96 *recorded under the indexer's own model name* whose deletion does not
throw has its record, mapping and vector rows removed (`CleanFor`), while
the new tool is still saved — also when some deletions fail.  (The claim's
unqualified "every existing tool" fails for candidates under a different
model name, which the deletion, scoped to `(tool_md5, model_name)`,
leaves in place.) -/
theorem C3_near_duplicate_replacement (dist : List ℚ → List ℚ → ℚ)
    (vectorize : JStr → List ℚ) (deleteFails : JStr → Bool) (db : DB)
    (t : MCPToolInfoM) (modelName : JStr)
    (hwf : DBWF db)
    (hname : mcpToolName t ≠ [])
    (hnew : getToolByMD5 db (generateToolMD5 (mcpToolName t) (mcpToolDesc t)) modelName = none) :
    (∃ row ∈ (indexMCPTools dist vectorize deleteFails db [t] modelName).db.tool_vectors,
        row.tool_md5 = generateToolMD5 (mcpToolName t) (mcpToolDesc t) ∧
        row.model_name = modelName) ∧
    (indexMCPTools dist vectorize deleteFails db [t] modelName).saveResults ≠ [] ∧
    (∀ s ∈ searchSimilarVectors dist db
        (vectorize (jsTrim (mcpToolName t ++ [' '] ++ mcpToolDesc t))) 10 (7/10) none,
      (96 : ℚ)/100 ≤ s.similarity → s.model_name = modelName →
      deleteFails s.tool_md5 = false →
      CleanFor db s.tool_md5 modelName
        (indexMCPTools dist vectorize deleteFails db [t] modelName).db) := by
  have hfind0 : ∀ row ∈ db.tool_vectors,
      ¬((row.tool_md5 == generateToolMD5 (mcpToolName t) (mcpToolDesc t) &&
          row.model_name == modelName) = true) :=
    List.find?_eq_none.1 hnew
  have hout := indexMCPTools_singleton_eq dist vectorize deleteFails db t modelName hname hnew
  set vec := vectorize (jsTrim (mcpToolName t ++ [' '] ++ mcpToolDesc t)) with hvec
  set cands := searchSimilarVectors dist db vec 10 (7/10) none with hcands
  set toDel := identifySimilarToolsToDelete (mcpToolName t) (mcpToolDesc t) cands (96/100)
    with htoDel
  set acc := toDel.foldl (indexStepDelete deleteFails modelName) (db, 0) with hacc
  have hshr : Shrinks acc.1 db := foldDelete_shrinks deleteFails modelName toDel (db, 0)
  have hfindAcc : acc.1.tool_vectors.find? (fun tv =>
      tv.tool_md5 == generateToolMD5 (mcpToolName t) (mcpToolDesc t) &&
        tv.model_name == modelName) = none := by
    rw [List.find?_eq_none]
    intro x hx
    exact hfind0 x (hshr.1 x hx)
  refine ⟨?_, ?_, ?_⟩
  · rw [hout]
    rw [saveToolVector_insert_eq _ _ _ _ _ hfindAcc]
    exact ⟨⟨acc.1.next_tool_id, generateToolMD5 (mcpToolName t) (mcpToolDesc t),
        modelName, mcpToolName t, mcpToolDesc t⟩,
      List.mem_append_right _ (List.mem_singleton.2 rfl), rfl, rfl⟩
  · rw [hout]
    simp
  · intro s hs hsim hmod hfail
    have hsdel : s ∈ toDel := by
      rw [htoDel, identifySimilarToolsToDelete]
      exact List.mem_filter.2 ⟨hs, decide_eq_true hsim⟩
    have hclean : CleanFor db s.tool_md5 modelName acc.1 :=
      foldDelete_clean deleteFails modelName db s toDel (db, 0) hsdel hfail
        (pairedFor_init db s.tool_md5 modelName)
    have hmd5 : generateToolMD5 (mcpToolName t) (mcpToolDesc t) ≠ s.tool_md5 := by
      intro hcon
      obtain ⟨tv, htv, htm, htmo⟩ := searchSimilar_provenance dist db vec 10 (7/10) none s hs
      exact hfind0 tv htv (by simp [htm, hcon, htmo, hmod])
    rw [hout]
    exact saveToolVector_insert_clean db s.tool_md5 modelName acc.1 hwf.1 hwf.2.2
      hshr.2.2.2.1 hshr.2.2.2.2 hclean (mcpToolName t) (mcpToolDesc t) vec hfindAcc hmd5

/-- Witness for C3 at a concrete same-model state: `k` (model `m`) is a
0.96-similar candidate of indexing `i`, and the run removes it while
saving `i`. -/
theorem C3_near_duplicate_replacement_witness :
    (∃ row ∈ (indexMCPTools cosDistUnit c6Vectorize noDeleteFail c6DB0 [c6ToolI]
          ("m".data)).db.tool_vectors,
        row.tool_md5 = generateToolMD5 (mcpToolName c6ToolI) (mcpToolDesc c6ToolI) ∧
        row.model_name = ("m".data)) ∧
    (indexMCPTools cosDistUnit c6Vectorize noDeleteFail c6DB0 [c6ToolI]
        ("m".data)).saveResults ≠ [] ∧
    (∀ s ∈ searchSimilarVectors cosDistUnit c6DB0
        (c6Vectorize (jsTrim (mcpToolName c6ToolI ++ [' '] ++ mcpToolDesc c6ToolI)))
        10 (7/10) none,
      (96 : ℚ)/100 ≤ s.similarity → s.model_name = ("m".data) →
      noDeleteFail s.tool_md5 = false →
      CleanFor c6DB0 s.tool_md5 ("m".data)
        (indexMCPTools cosDistUnit c6Vectorize noDeleteFail c6DB0 [c6ToolI]
          ("m".data)).db) :=
  C3_near_duplicate_replacement cosDistUnit c6Vectorize noDeleteFail c6DB0 c6ToolI ("m".data)
    (by refine ⟨?_, ?_, ?_⟩ <;> decide) (by decide) (by decide)

end ClaimProofs
